import Mathlib

/-!
# simple-nano-wallet-js: the wallet's transaction-issuance core

A shallow embedding of `src/wallet/rpc.js` and `src/wallet/wallet.js`.

* JavaScript values are the type `JVal`; a property read on `null` or
  `undefined` raises a `TypeError`, as in the language.
* An `async` function is a function from a `World` (the state of the remote
  side, the log of calls made so far, the calls made without `await` that
  have not run yet, the unhandled rejections) to an outcome and a new world.
  The outcome is `Except JsError α`: `.ok v` is a promise resolved with `v`,
  `.error e` a promise rejected with `e`. Effects made before a rejection stay
  in the world.
* A call made without `await` is recorded by `spawn` and run by `runTask`; a
  rejection of such a call is recorded as unhandled. What the JavaScript
  runtime does with an unhandled rejection is outside the model.
* The collaborators that are not part of the repository (the HTTP transport,
  `JSON.stringify`, `JSON.parse`, the block signer and the key derivation of
  `multi-nano-web`) are the fields of `Lib`; nothing is assumed about them.
* `lock.acquire(key, fn)` of `async-lock` is modelled for one operation at a
  time: with the key free it runs `fn` and settles with the outcome of `fn`.
-/

namespace NanoWallet

/-! ## Values and errors -/

/-- A raised JavaScript error: the constructor name and the message. -/
structure JsError where
  name : String
  message : String
deriving DecidableEq, Repr

/-- JavaScript values as they come out of a JSON document, plus `undefined`.
Numbers are the integer-valued ones. A string is `str`, except the string of
one UTF-16 code unit that is a lone surrogate (what an index read gives inside
a character outside the basic plane), which is `surrogate`. The property list
of an object is in the enumeration order of the engine and has one binding per
key. -/
inductive JVal where
  | undefined
  | null
  | bool (b : Bool)
  | num (n : Int)
  | str (s : String)
  | surrogate (code : Nat)
  | arr (items : List JVal)
  | obj (props : List (String × JVal))

namespace JVal

/-- The test `v === undefined`. -/
def isUndefined : JVal → Bool
  | .undefined => true
  | _ => false

/-- The test `v === s` against a string literal `s`. -/
def isStr (v : JVal) (s : String) : Bool :=
  match v with
  | .str t => t == s
  | _ => false

/-- Reads of an index key (`"0"`, `"1"`, ...) on a list of elements. -/
def index (items : List JVal) (k : String) : JVal :=
  match k.toNat? with
  | some i => if toString i == k then (items.get? i).getD .undefined else .undefined
  | none => .undefined

/-- The UTF-16 code units of a character, each as the value an index read
gives: the character itself inside the basic plane, the high and the low
surrogate otherwise. -/
def charUnits (c : Char) : List JVal :=
  if c.toNat < 65536 then [.str (String.singleton c)]
  else [.surrogate (55296 + (c.toNat - 65536) / 1024),
    .surrogate (56320 + (c.toNat - 65536) % 1024)]

/-- The UTF-16 code units of a string, in order. -/
def stringUnits (s : String) : List JVal :=
  s.toList.foldr (fun c units => charUnits c ++ units) []

/-- The property read `v.k` (or `v[k]`) for the property names the wallet
reads: own properties, the indices and `length` of arrays and strings (in
UTF-16 code units); `null` and `undefined` raise. -/
def get (v : JVal) (k : String) : Except JsError JVal :=
  match v with
  | .undefined =>
    .error ⟨"TypeError", "Cannot read properties of undefined (reading '" ++ k ++ "')"⟩
  | .null =>
    .error ⟨"TypeError", "Cannot read properties of null (reading '" ++ k ++ "')"⟩
  | .obj props => .ok ((props.lookup k).getD .undefined)
  | .arr items =>
    if k == "length" then .ok (.num items.length) else .ok (index items k)
  | .str s =>
    if k == "length" then .ok (.num (stringUnits s).length)
    else .ok (index (stringUnits s) k)
  | .surrogate code =>
    if k == "length" then .ok (.num 1) else .ok (index [.surrogate code] k)
  | _ => .ok .undefined

/-- The keys visited by `for (const k in v)`: the own enumerable string keys
(for a string the indices of its UTF-16 code units); nothing for `null`,
`undefined`, numbers and booleans. -/
def forInKeys : JVal → List String
  | .obj props => props.map Prod.fst
  | .arr items => (List.range items.length).map toString
  | .str s => (List.range (stringUnits s).length).map toString
  | .surrogate _ => ["0"]
  | _ => []

end JVal

/-! ## Data passed to the signing primitive -/

/-- A derived account, as returned by `walletLib.legacyAccounts`. -/
structure Account where
  accountIndex : Nat
  privateKey : String
  publicKey : String
  address : String
deriving DecidableEq, Repr

/-- The `data` object of `send`, handed to `block.send`. -/
structure SendData where
  walletBalanceRaw : JVal
  fromAddress : JVal
  toAddress : JVal
  representativeAddress : JVal
  frontier : JVal
  amountRaw : JVal
  work : JVal

/-- The `data` object of `receive`, handed to `block.receive`. -/
structure ReceiveData where
  toAddress : JVal
  transactionHash : JVal
  amountRaw : JVal
  walletBalanceRaw : JVal
  representativeAddress : JVal
  frontier : JVal
  work : JVal

/-- The `pendingTx` object: `hash` and `amount`. -/
structure PendingTx where
  hash : JVal
  amount : JVal

/-! ## The world: remote side and call log -/

/-- What `fetch(url, ...)` followed by `data.json()` gives: the request fails
(the promise of `fetch` rejects), or a response arrives whose body parses to a
value or makes `data.json()` throw an error with the given message. -/
inductive HttpReply where
  | networkFailure (e : JsError)
  | body (parsed : Except String JVal)

/-- The calls the wallet makes, in the order they are made. The entry of an
RPC method stands for its request. -/
inductive Event where
  | account_info (account : String)
  | work_generate (hash : JVal)
  | receivable (account : String)
  | process (block : JVal) (subtype : String)
  | getPrivateKey (address : String)
  | getPublicKey (address : String)
  | blockSend (data : SendData) (privateKey : String)
  | blockReceive (data : ReceiveData) (privateKey : String)
  | receive (account : String) (pendingTx : PendingTx)

namespace Event

/-- The call is an invocation of `receive`. -/
def isReceive : Event → Bool
  | .receive _ _ => true
  | _ => false

end Event

/-- A call of an `async` method made without `await`: the method and its
arguments. -/
inductive Task where
  | receive (account : String) (pendingTx : PendingTx)
  | wsOnMessage (data_json : JVal)
  | wsAutoReceiveSend (data_json : JVal)

/-- The state of the remote side (`σ`, known to the transport only), the log
of calls made so far, the calls made without `await` that have not run yet (in
the order they were made), and the rejections of promises nobody awaits. -/
structure World (σ : Type) where
  remote : σ
  trace : List Event
  spawned : List Task
  unhandled : List JsError

/-- The world with further calls appended to its log. -/
def World.logged {σ : Type} (w : World σ) (es : List Event) : World σ :=
  { w with trace := w.trace ++ es }

/-- The collaborators outside the repository. `fetch` is the HTTP transport
(URL, headers, request parameters before `JSON.stringify`); `blockSend` and
`blockReceive` are `block.send` and `block.receive` of `multi-nano-web`, which
may throw; `legacyAccounts` is `walletLib.legacyAccounts(seed, from, to)`. -/
structure Lib (σ : Type) where
  fetch : σ → String → List (String × String) → JVal → HttpReply × σ
  jsonStringify : JVal → String
  jsonParse : String → Except JsError JVal
  blockSend : SendData → String → Except JsError JVal
  blockReceive : ReceiveData → String → Except JsError JVal
  legacyAccounts : String → Nat → Nat → List Account

/-- An `async` computation: from a world to a settled outcome and a world. -/
def Async (σ α : Type) : Type := World σ → Except JsError α × World σ

namespace Async

variable {σ α β : Type}

/-- A promise resolved with `a`. -/
def ret (a : α) : Async σ α := fun w => (.ok a, w)

/-- What follows a settled step: the continuation `f` on a resolved value, the
rejection itself otherwise. -/
def cont (r : Except JsError α × World σ) (f : α → Async σ β) : Except JsError β × World σ :=
  match r with
  | (.ok a, w1) => f a w1
  | (.error e, w1) => (.error e, w1)

/-- Sequencing: `await x` then continue with `f`; a rejection of `x` is the
outcome. -/
def andThen (x : Async σ α) (f : α → Async σ β) : Async σ β := fun w => cont (x w) f

instance : Monad (Async σ) where
  pure := ret
  bind := andThen

/-- The statement `throw e`. -/
def raise (e : JsError) : Async σ α := fun w => (.error e, w)

/-- A synchronous step that may throw. -/
def ofExcept : Except JsError α → Async σ α
  | .ok a => ret a
  | .error e => raise e

/-- Appends a call to the log. -/
def log (e : Event) : Async σ Unit := fun w => (.ok (), { w with trace := w.trace ++ [e] })

/-- One HTTP exchange with the remote side. -/
def http (lib : Lib σ) (url : String) (headers : List (String × String)) (params : JVal) :
    Async σ HttpReply := fun w =>
  let r := lib.fetch w.remote url headers params
  (.ok r.1, { w with remote := r.2 })

/-- A call made without `await`: the caller goes on at once and the call is
left to run afterwards. In the code the callee runs at once up to its first
`await` and the rest later; that first part only reads the wallet and enters
an RPC method, it sends no request, so the replies every call gets are the
same when the whole callee runs later, as here. -/
def spawn (t : Task) : Async σ Unit := fun w =>
  (.ok (), { w with spawned := w.spawned ++ [t] })

/-- The end of a call nobody awaits: its effects stay, its value is dropped, a
rejection is left unhandled. -/
def settle (x : Async σ α) (w : World σ) : World σ :=
  match x w with
  | (.ok _, w1) => w1
  | (.error e, w1) => { w1 with unhandled := w1.unhandled ++ [e] }

end Async

open Async

/-! ## `rpc.js` -/

/-- The class `RPC`: the node URL, the work-server URL and the headers. -/
structure RPC where
  rpcURL : String
  worURL : String
  headerAuth : List (String × String)

namespace RPC

variable {σ : Type}

/-- The method `req`: posts `params` to the work server when the action is
`work_generate` and to the node otherwise; a body that is not JSON becomes the
value `{error: <message>}`. -/
def req (lib : Lib σ) (rpc : RPC) (params : JVal) : Async σ JVal := do
  let action ← ofExcept (params.get "action")
  let url := if action.isStr "work_generate" then rpc.worURL else rpc.rpcURL
  let data ← http lib url rpc.headerAuth params
  match data with
  | .networkFailure e => raise e
  | .body (.ok v) => pure v
  | .body (.error m) => pure (.obj [("error", .str m)])

/-- The request parameters of `account_info`. -/
def accountInfoParams (account : String) : JVal :=
  .obj [("action", .str "account_info"), ("account", .str account),
    ("representative", .str "true")]

/-- The request parameters of `work_generate`. -/
def workGenerateParams (hash : JVal) : JVal :=
  .obj [("action", .str "work_generate"), ("hash", hash)]

/-- The request parameters of `receivable`. -/
def receivableParams (account : String) : JVal :=
  .obj [("action", .str "pending"), ("account", .str account), ("threshold", .str "1")]

/-- The request parameters of `process`. -/
def processParams (block : JVal) (subtype : String) : JVal :=
  .obj [("action", .str "process"), ("json_block", .str "true"), ("subtype", .str subtype),
    ("block", block)]

/-- The method `account_info`. -/
def account_info (lib : Lib σ) (rpc : RPC) (account : String) : Async σ JVal := do
  log (.account_info account)
  req lib rpc (accountInfoParams account)

/-- The method `work_generate`: throws when the answer has no `work`. -/
def work_generate (lib : Lib σ) (rpc : RPC) (hash : JVal) : Async σ JVal := do
  log (.work_generate hash)
  let r ← req lib rpc (workGenerateParams hash)
  let work ← ofExcept (r.get "work")
  if work.isUndefined then
    raise ⟨"Error", "work_generate failed on " ++ rpc.worURL ++ ": " ++ lib.jsonStringify r⟩
  else
    pure work

/-- The method `receivable`: the `blocks` of the answer to `pending`. -/
def receivable (lib : Lib σ) (rpc : RPC) (account : String) : Async σ JVal := do
  log (.receivable account)
  let r ← req lib rpc (receivableParams account)
  ofExcept (r.get "blocks")

/-- The method `process`. -/
def process (lib : Lib σ) (rpc : RPC) (block : JVal) (subtype : String) : Async σ JVal := do
  log (.process block subtype)
  req lib rpc (processParams block subtype)

end RPC

/-! ## `wallet.js` -/

/-- The field `websocket`: `undefined`, `null`, or a reconnecting websocket
with the texts handed to its `send` so far. -/
inductive WsRef where
  | undefined
  | null
  | socket (url : String) (sent : List String)

/-- The argument object of the constructor, with its defaults. The timer set
for `connectionTimeout` is not part of the model. -/
structure Config where
  RPC_URL : String
  WORK_URL : String
  WS_URL : Option String
  seed : Option String
  defaultRep : JVal
  autoReceive : Bool := true
  pfx : String := "nano_"
  decimal : Nat := 30
  customHeaders : List (String × String) := []
  wsSubAll : Bool := false

/-- The class `Wallet`: its fields. `autoReceive` is the constructor argument
captured by the `onmessage` handler. -/
structure Wallet where
  mapAccounts : List (String × Account)
  lastIndex : Nat
  seed : Option String
  pfx : String
  decimal : Nat
  defaultRep : JVal
  rpc : RPC
  websocket : WsRef
  autoReceive : Bool

/-- The method `Map.prototype.set`: an existing key keeps its place. -/
def mapSet (m : List (String × Account)) (k : String) (v : Account) : List (String × Account) :=
  match m with
  | [] => [(k, v)]
  | (k1, v1) :: rest => if k1 == k then (k, v) :: rest else (k1, v1) :: mapSet rest k v

/-- The call `Object.assign(target, source)` on header objects. -/
def objectAssign (target source : List (String × String)) : List (String × String) :=
  source.foldl (fun t kv =>
    if t.any (fun e => e.1 == kv.1) then t.map (fun e => if e.1 == kv.1 then kv else e)
    else t ++ [kv]) target

/-- The call `s.replace(pat, rep)` with a string pattern on a list of
characters: the first occurrence of `pat` is replaced. -/
def replaceFirstChars (pat rep : List Char) : List Char → List Char
  | [] => if pat.isEmpty then rep else []
  | c :: cs =>
    if pat.isPrefixOf (c :: cs) then rep ++ (c :: cs).drop pat.length
    else c :: replaceFirstChars pat rep cs

/-- The call `s.replace(pat, rep)` with a string pattern; `rep` is taken
literally (it holds no dollar sign). -/
def replaceFirst (s pat rep : String) : String :=
  String.mk (replaceFirstChars pat.toList rep.toList s.toList)

/-- The object `confirmation_subscription` of `subscribeConfirmation`. -/
def confirmationSubscription (accounts : Option (List String)) : JVal :=
  .obj ([("action", .str "subscribe"), ("topic", .str "confirmation"), ("ack", .bool true)] ++
    match accounts with
    | none => []
    | some l => [("options", .obj [("accounts", .arr (l.map .str))])])

namespace Wallet

variable {σ : Type}

/-- The method `subscribeConfirmation`: hands the subscription text to
`this.websocket.send`, which raises when `this.websocket` is `null` or
`undefined`. -/
def subscribeConfirmation (lib : Lib σ) (w : Wallet) (accounts : Option (List String)) :
    Except JsError Unit × Wallet :=
  match w.websocket with
  | .socket url sent =>
    (.ok (), { w with
      websocket := .socket url (sent ++ [lib.jsonStringify (confirmationSubscription accounts)]) })
  | .null => (.error ⟨"TypeError", "Cannot read properties of null (reading 'send')"⟩, w)
  | .undefined =>
    (.error ⟨"TypeError", "Cannot read properties of undefined (reading 'send')"⟩, w)

/-- The constructor. -/
def new (lib : Lib σ) (cfg : Config) : Wallet :=
  let w0 : Wallet :=
    { mapAccounts := [], lastIndex := 0, seed := cfg.seed, pfx := cfg.pfx,
      decimal := cfg.decimal, defaultRep := cfg.defaultRep,
      rpc := ⟨cfg.RPC_URL, cfg.WORK_URL,
        objectAssign [("Content-Type", "application/json")] cfg.customHeaders⟩,
      websocket := .null, autoReceive := cfg.autoReceive }
  match cfg.WS_URL with
  | none => w0
  | some url =>
    let w1 : Wallet := { w0 with websocket := .socket url [] }
    if cfg.wsSubAll then (subscribeConfirmation lib w1 none).2
    else if w1.mapAccounts.length > 0 then
      (subscribeConfirmation lib w1 (some (w1.mapAccounts.map Prod.fst))).2
    else w1

/-- The method `createAccounts`. -/
def createAccounts (lib : Lib σ) (w : Wallet) (nbAccounts : Nat) :
    Except JsError (List String) × Wallet :=
  match w.seed with
  | none =>
    (.error ⟨"Error", "No seed defined. Create a wallet first with createWallet() or use a seed in the wallet constructor"⟩, w)
  | some seed =>
    let derived := lib.legacyAccounts seed w.lastIndex (w.lastIndex + nbAccounts)
    let w1 : Wallet := { w with lastIndex := w.lastIndex + nbAccounts }
    let accounts := derived.map (fun a => { a with address := replaceFirst a.address "nano_" w1.pfx })
    let w2 : Wallet :=
      { w1 with mapAccounts := accounts.foldl (fun m a => mapSet m a.address a) w1.mapAccounts }
    let addresses := accounts.map (fun a => a.address)
    match w2.websocket with
    | .undefined => (.ok addresses, w2)
    | _ =>
      match subscribeConfirmation lib w2 (some addresses) with
      | (.ok _, w3) => (.ok addresses, w3)
      | (.error e, w3) => (.error e, w3)

/-- The method `getAccounts`. -/
def getAccounts (w : Wallet) : List String := w.mapAccounts.map Prod.fst

/-- The method `getAccount`: `this.mapAccounts.get(address)`; the keys of the
table are strings, so another kind of value finds nothing. -/
def getAccount (w : Wallet) (address : JVal) : Option Account :=
  match address with
  | .str a => w.mapAccounts.lookup a
  | _ => none

/-- The method `getPrivateKey`. -/
def getPrivateKey (w : Wallet) (address : String) : Async σ String := do
  log (.getPrivateKey address)
  match w.mapAccounts.lookup address with
  | none => raise ⟨"Error", address ++ " not found in wallet"⟩
  | some account => pure account.privateKey

/-- The method `getPublicKey`. -/
def getPublicKey (w : Wallet) (address : String) : Async σ String := do
  log (.getPublicKey address)
  match w.mapAccounts.lookup address with
  | none => raise ⟨"Error", address ++ " not found in wallet"⟩
  | some account => pure account.publicKey

/-- The call `lock.acquire(key, fn)` with the key free: runs `fn` and settles
with its outcome. -/
def lockAcquire {α : Type} (_key : String) (fn : Async σ α) : Async σ α := fn

/-- The call `block.send(data, pk)`. -/
def blockSend (lib : Lib σ) (data : SendData) (pk : String) : Async σ JVal := do
  log (.blockSend data pk)
  ofExcept (lib.blockSend data pk)

/-- The call `block.receive(data, privateKey)`. -/
def blockReceive (lib : Lib σ) (data : ReceiveData) (privateKey : String) : Async σ JVal := do
  log (.blockReceive data privateKey)
  ofExcept (lib.blockReceive data privateKey)

/-- The method `send`. -/
def send (lib : Lib σ) (w : Wallet) (source : String) (destination amount : JVal) :
    Async σ JVal :=
  lockAcquire source (do
    let account_info ← w.rpc.account_info lib source
    let error ← ofExcept (account_info.get "error")
    if !error.isUndefined then
      pure (.obj [("error", error)])
    else do
      let balance ← ofExcept (account_info.get "balance")
      let representative ← ofExcept (account_info.get "representative")
      let frontier ← ofExcept (account_info.get "frontier")
      let frontier2 ← ofExcept (account_info.get "frontier")
      let work ← w.rpc.work_generate lib frontier2
      let data : SendData :=
        { walletBalanceRaw := balance, fromAddress := .str source, toAddress := destination,
          representativeAddress := representative, frontier := frontier, amountRaw := amount,
          work := work }
      let pk ← getPrivateKey w source
      let signedBlock ← blockSend lib data pk
      let r ← w.rpc.process lib signedBlock "send"
      pure r)

/-- The method `receive`. The invocation itself is the first entry it adds to
the log. The trailing arguments `pk` and `pubk` that `wsAutoReceiveSend`
passes are ignored by it. -/
def receive (lib : Lib σ) (w : Wallet) (account : String) (pendingTx : PendingTx) :
    Async σ JVal := do
  log (.receive account pendingTx)
  lockAcquire account (do
    let privateKey ← getPrivateKey w account
    let account_info ← w.rpc.account_info lib account
    let error ← ofExcept (account_info.get "error")
    if error.isStr "Account not found" then do
      let publicKey ← getPublicKey w account
      let work ← w.rpc.work_generate lib (.str publicKey)
      let data : ReceiveData :=
        { toAddress := .str account, transactionHash := pendingTx.hash,
          amountRaw := pendingTx.amount, walletBalanceRaw := .str "0",
          representativeAddress := w.defaultRep,
          frontier := .str "0000000000000000000000000000000000000000000000000000000000000000",
          work := work }
      let signedBlock ← blockReceive lib data privateKey
      let r ← w.rpc.process lib signedBlock "receive"
      pure r
    else do
      let balance ← ofExcept (account_info.get "balance")
      let representative ← ofExcept (account_info.get "representative")
      let frontier ← ofExcept (account_info.get "frontier")
      let frontier2 ← ofExcept (account_info.get "frontier")
      let work ← w.rpc.work_generate lib frontier2
      let data : ReceiveData :=
        { toAddress := .str account, transactionHash := pendingTx.hash,
          amountRaw := pendingTx.amount, walletBalanceRaw := balance,
          representativeAddress := representative, frontier := frontier, work := work }
      let signedBlock ← blockReceive lib data privateKey
      let r ← w.rpc.process lib signedBlock "receive"
      pure r)

/-- The loop of `receiveAll` over the keys of `hashes`: each `receive` is
called without `await`. -/
def receiveEach (account : String) (hashes : JVal) : List String → Async σ Unit
  | [] => pure ()
  | hash :: rest => do
    let amount ← ofExcept (hashes.get hash)
    spawn (.receive account { hash := .str hash, amount := amount })
    receiveEach account hashes rest

/-- The method `receiveAll`. -/
def receiveAll (lib : Lib σ) (w : Wallet) (account : String) : Async σ JVal := do
  let hashes ← w.rpc.receivable lib account
  receiveEach account hashes hashes.forInKeys
  pure (.obj [("started", .bool true)])

/-- The method `wsOnMessage`: does nothing. -/
def wsOnMessage (_w : Wallet) (_data_json : JVal) : Async σ JVal := pure .undefined

/-- The method `wsAutoReceiveSend`. -/
def wsAutoReceiveSend (lib : Lib σ) (w : Wallet) (data_json : JVal) : Async σ JVal := do
  let topic ← ofExcept (data_json.get "topic")
  if !topic.isStr "confirmation" then pure .undefined
  else do
    let message ← ofExcept (data_json.get "message")
    if message.isUndefined then pure .undefined
    else do
      let block ← ofExcept (message.get "block")
      let subtype ← ofExcept (block.get "subtype")
      if !subtype.isStr "send" then pure .undefined
      else do
        let hash ← ofExcept (message.get "hash")
        let amount ← ofExcept (message.get "amount")
        let pendingTx : PendingTx := { hash := hash, amount := amount }
        let link_as_account ← ofExcept (block.get "link_as_account")
        match link_as_account, getAccount w link_as_account with
        | .str address, some _accountDb => do
          let _received ← receive lib w address pendingTx
          pure .undefined
        | _, _ => pure .undefined

/-- The handler `websocket.onmessage`: `wsOnMessage` and `wsAutoReceiveSend`
are called without `await`. -/
def onmessage (lib : Lib σ) (w : Wallet) (msgData : String) : Async σ JVal := do
  let data_json ← ofExcept (lib.jsonParse msgData)
  spawn (.wsOnMessage data_json)
  if w.autoReceive then
    spawn (.wsAutoReceiveSend data_json)
  pure .undefined

/-- The run of a call made without `await`: the method on its arguments, ended
by `settle`. -/
def runTask (lib : Lib σ) (w : Wallet) : Task → World σ → World σ
  | .receive account pendingTx => settle (receive lib w account pendingTx)
  | .wsOnMessage data_json => settle (wsOnMessage w data_json)
  | .wsAutoReceiveSend data_json => settle (wsAutoReceiveSend lib w data_json)

/-- The run of all the calls made without `await`, one at a time in the order
they were made (the order the lock gives to calls on one address). -/
def drain (lib : Lib σ) (w : Wallet) (world : World σ) : World σ :=
  world.spawned.foldl (fun wd t => runTask lib w t wd) { world with spawned := [] }

end Wallet

/-! ## Specification vocabulary and sample collaborators -/

/-- The computation appends calls to the log, none of them an invocation of
`receive`. -/
def Quiet {σ α : Type} (x : Async σ α) : Prop :=
  ∀ w, ∃ l, (x w).2.trace = w.trace ++ l ∧ l.filter Event.isReceive = []

/-- A transport that answers from a script: each request takes the next
reply; once the script is used up the request fails. -/
def scriptedFetch : List HttpReply → String → List (String × String) → JVal →
    HttpReply × List HttpReply
  | [], _, _, _ => (.networkFailure ⟨"FetchError", "request failed"⟩, [])
  | r :: rest, _, _, _ => (r, rest)

/-- The JSON documents the sample parser knows, with their values. -/
def sampleDocuments : List (String × JVal) :=
  [("null", .null),
   ("\x7b\"topic\":\"confirmation\",\"message\":null\x7d",
     .obj [("topic", .str "confirmation"), ("message", .null)]),
   ("\x7b\"ack\":\"subscribe\"\x7d", .obj [("ack", .str "subscribe")])]

/-- Sample collaborators: the scripted transport, a signer that wraps the
fields it is given, a parser that knows the documents of `sampleDocuments` and
rejects every other text, and a key derivation that numbers the accounts from
`first` to `last` inclusive. -/
def sampleLib : Lib (List HttpReply) where
  fetch := scriptedFetch
  jsonStringify := fun _ => "json"
  jsonParse := fun s =>
    match sampleDocuments.lookup s with
    | some v => .ok v
    | none => .error ⟨"SyntaxError", "Unexpected token"⟩
  blockSend := fun d pk =>
    .ok (.obj [("previous", d.frontier), ("link", d.toAddress), ("work", d.work),
      ("signature", .str pk)])
  blockReceive := fun d pk =>
    .ok (.obj [("previous", d.frontier), ("link", d.transactionHash), ("work", d.work),
      ("signature", .str pk)])
  legacyAccounts := fun seed first last =>
    (List.range (last + 1 - first)).map (fun i =>
      ⟨first + i, seed ++ "-priv", seed ++ "-pub", "nano_" ++ toString (first + i)⟩)

/-- A sample wallet holding the account `nano_a`, built with a websocket. -/
def sampleWallet : Wallet where
  mapAccounts := [("nano_a", ⟨0, "priv_a", "pub_a", "nano_a"⟩)]
  lastIndex := 1
  seed := some "seed"
  pfx := "nano_"
  decimal := 30
  defaultRep := .str "nano_rep"
  rpc := ⟨"http://node", "http://work", [("Content-Type", "application/json")]⟩
  websocket := .socket "ws://node" []
  autoReceive := true

/-- A sample constructor argument without `WS_URL`. -/
def sampleConfig : Config where
  RPC_URL := "http://node"
  WORK_URL := "http://work"
  WS_URL := none
  seed := some "0000000000000000000000000000000000000000000000000000000000000001"
  defaultRep := .str "nano_rep"

/-- The answer of the node to `account_info` for an opened account. -/
def sampleInfo : JVal :=
  .obj [("frontier", .str "F0"), ("balance", .str "100"), ("representative", .str "nano_rep2")]

/-- The answer of the node to `account_info` for an account without blocks. -/
def sampleNotFound : JVal := .obj [("error", .str "Account not found")]

/-- A pending transaction. -/
def samplePending : PendingTx := ⟨.str "S1", .str "50"⟩

/-- A script for an operation on an opened account: the state, a work token,
the answer to the submission. -/
def sampleScript : List HttpReply :=
  [.body (.ok sampleInfo), .body (.ok (.obj [("work", .str "W1")])),
    .body (.ok (.obj [("hash", .str "H1")]))]

/-- A script for a receive on an account without blocks. -/
def sampleOpenScript : List HttpReply :=
  [.body (.ok sampleNotFound), .body (.ok (.obj [("work", .str "W1")])),
    .body (.ok (.obj [("hash", .str "H1")]))]

/-- A script where the node answers the state fetch with a body that is not
JSON (so `req` gives `{error: <message>}`), then a work token and the answer
to a submission. -/
def sampleBrokenScript : List HttpReply :=
  [.body (.error "Unexpected token < in JSON at position 0"),
    .body (.ok (.obj [("work", .str "W1")])), .body (.ok (.obj [("hash", .str "H1")]))]

/-- A feed message announcing a send of 50 to `nano_a`. -/
def sampleConfirmation : JVal :=
  .obj [("topic", .str "confirmation"),
    ("message", .obj [("hash", .str "S1"), ("amount", .str "50"),
      ("block", .obj [("subtype", .str "send"), ("link_as_account", .str "nano_a")])])]

/-- The work server's answer with a token. -/
def sampleWork : JVal := .obj [("work", .str "W1")]

/-- The node's answer to a submission. -/
def sampleProcessed : JVal := .obj [("hash", .str "H1")]

/-- The world before anything happened, with a script for the transport. -/
def sampleWorld (script : List HttpReply) : World (List HttpReply) := ⟨script, [], [], []⟩

/-- A receivable mapping of three entries. -/
def sampleReceivable : List (String × JVal) :=
  [("S1", .str "50"), ("S2", .str "7"), ("S3", .str "1")]

/-! ## Running computations -/

namespace Async

variable {σ α β : Type}

theorem run_bind (x : Async σ α) (f : α → Async σ β) (w : World σ) :
    (x >>= f) w = cont (x w) f := rfl

@[simp]
theorem cont_ok (a : α) (w1 : World σ) (f : α → Async σ β) : cont (.ok a, w1) f = f a w1 := rfl

@[simp]
theorem cont_error (e : JsError) (w1 : World σ) (f : α → Async σ β) :
    cont (.error e, w1) f = (.error e, w1) := rfl

theorem run_bind_ok (x : Async σ α) (f : α → Async σ β) (w w1 : World σ) (a : α)
    (h : x w = (.ok a, w1)) : (x >>= f) w = f a w1 := by
  rw [run_bind, h, cont_ok]

theorem run_bind_error (x : Async σ α) (f : α → Async σ β) (w w1 : World σ) (e : JsError)
    (h : x w = (.error e, w1)) : (x >>= f) w = (.error e, w1) := by
  rw [run_bind, h, cont_error]

@[simp]
theorem run_pure (a : α) (w : World σ) : (pure a : Async σ α) w = (.ok a, w) := rfl

@[simp]
theorem run_ret (a : α) (w : World σ) : (ret a : Async σ α) w = (.ok a, w) := rfl

@[simp]
theorem run_raise (e : JsError) (w : World σ) : (raise e : Async σ α) w = (.error e, w) :=
  rfl

@[simp]
theorem run_ofExcept_ok (a : α) (w : World σ) :
    (ofExcept (.ok a) : Async σ α) w = (.ok a, w) := rfl

@[simp]
theorem run_ofExcept_error (e : JsError) (w : World σ) :
    (ofExcept (.error e) : Async σ α) w = (.error e, w) := rfl

@[simp]
theorem run_log (e : Event) (w : World σ) :
    (log e : Async σ Unit) w = (.ok (), { w with trace := w.trace ++ [e] }) := rfl

@[simp]
theorem run_spawn (t : Task) (w : World σ) :
    (spawn t : Async σ Unit) w = (.ok (), { w with spawned := w.spawned ++ [t] }) := rfl

end Async

namespace RPC

variable {σ : Type}

/-- The method `req` leaves the call log as it is. -/
theorem req_trace (lib : Lib σ) (rpc : RPC) (params : JVal) (w : World σ) :
    (req lib rpc params w).2.trace = w.trace := by
  unfold req
  rw [run_bind]
  cases hp : params.get "action" with
  | error e => simp
  | ok action =>
    simp only [run_ofExcept_ok, cont_ok]
    rw [run_bind]
    simp only [http, cont_ok]
    cases hf : (lib.fetch w.remote (if action.isStr "work_generate" = true then rpc.worURL
      else rpc.rpcURL) rpc.headerAuth params).1 with
    | networkFailure e => simp
    | body parsed => cases parsed <;> simp

/-- The method `account_info` logs one call. -/
theorem account_info_trace (lib : Lib σ) (rpc : RPC) (account : String) (w : World σ) :
    (account_info lib rpc account w).2.trace = w.trace ++ [Event.account_info account] := by
  unfold account_info
  rw [run_bind]
  simp only [run_log, cont_ok]
  rw [req_trace]

/-- The method `work_generate` logs one call. -/
theorem work_generate_trace (lib : Lib σ) (rpc : RPC) (hash : JVal) (w : World σ) :
    (work_generate lib rpc hash w).2.trace = w.trace ++ [Event.work_generate hash] := by
  have hq := req_trace lib rpc (workGenerateParams hash)
    { w with trace := w.trace ++ [Event.work_generate hash] }
  unfold work_generate
  rw [run_bind]
  simp only [run_log, cont_ok]
  rw [run_bind]
  cases hr : req lib rpc (workGenerateParams hash)
      { w with trace := w.trace ++ [Event.work_generate hash] } with
  | mk out w1 =>
    rw [hr] at hq
    cases out with
    | error e => simpa using hq
    | ok r =>
      simp only [cont_ok]
      rw [run_bind]
      cases hg : r.get "work" with
      | error e => simpa using hq
      | ok work => cases hu : work.isUndefined <;> simpa [hu] using hq

/-- The method `process` logs one call. -/
theorem process_trace (lib : Lib σ) (rpc : RPC) (block : JVal) (subtype : String)
    (w : World σ) :
    (process lib rpc block subtype w).2.trace = w.trace ++ [Event.process block subtype] := by
  unfold process
  rw [run_bind]
  simp only [run_log, cont_ok]
  rw [req_trace]

/-- The method `receivable` logs one call. -/
theorem receivable_trace (lib : Lib σ) (rpc : RPC) (account : String) (w : World σ) :
    (receivable lib rpc account w).2.trace = w.trace ++ [Event.receivable account] := by
  have hq := req_trace lib rpc (receivableParams account)
    { w with trace := w.trace ++ [Event.receivable account] }
  unfold receivable
  rw [run_bind]
  simp only [run_log, cont_ok]
  rw [run_bind]
  cases hr : req lib rpc (receivableParams account)
      { w with trace := w.trace ++ [Event.receivable account] } with
  | mk out w1 =>
    rw [hr] at hq
    cases out with
    | error e => simpa using hq
    | ok r =>
      simp only [cont_ok]
      cases hg : r.get "blocks" <;> simpa using hq

/-- A property read on an object is a lookup in its property list. -/
theorem get_obj (props : List (String × JVal)) (k : String) :
    (JVal.obj props).get k = .ok ((props.lookup k).getD .undefined) := rfl

/-- The method `account_info` when the node answers with a JSON body: the
request goes to the node URL with the three parameters, and the body is the
result. -/
theorem run_account_info (lib : Lib σ) (rpc : RPC) (account : String) (w : World σ)
    (info : JVal) (s1 : σ)
    (h : lib.fetch w.remote rpc.rpcURL rpc.headerAuth
      (.obj [("action", .str "account_info"), ("account", .str account),
        ("representative", .str "true")]) = (.body (.ok info), s1)) :
    account_info lib rpc account w =
      (.ok info, ⟨s1, w.trace ++ [Event.account_info account], w.spawned, w.unhandled⟩) := by
  unfold account_info req accountInfoParams
  simp [run_bind, http, get_obj, List.lookup, JVal.isStr, h]

/-- The method `work_generate` when the work server answers with a JSON body
that holds a `work`: the request goes to the work-server URL with the hash, and
that `work` is the result. -/
theorem run_work_generate (lib : Lib σ) (rpc : RPC) (hash : JVal) (w : World σ)
    (workReply token : JVal) (s1 : σ)
    (h : lib.fetch w.remote rpc.worURL rpc.headerAuth
      (.obj [("action", .str "work_generate"), ("hash", hash)]) = (.body (.ok workReply), s1))
    (htoken : workReply.get "work" = .ok token) (hdef : token.isUndefined = false) :
    work_generate lib rpc hash w =
      (.ok token, ⟨s1, w.trace ++ [Event.work_generate hash], w.spawned, w.unhandled⟩) := by
  unfold work_generate req workGenerateParams
  simp [run_bind, http, get_obj, List.lookup, JVal.isStr, h, htoken, hdef]

/-- The method `process` when the node answers with a JSON body: the request
goes to the node URL with the block and the subtype, and the body is the
result. -/
theorem run_process (lib : Lib σ) (rpc : RPC) (block : JVal) (subtype : String)
    (w : World σ) (response : JVal) (s1 : σ)
    (h : lib.fetch w.remote rpc.rpcURL rpc.headerAuth
      (.obj [("action", .str "process"), ("json_block", .str "true"),
        ("subtype", .str subtype), ("block", block)]) = (.body (.ok response), s1)) :
    process lib rpc block subtype w =
      (.ok response, ⟨s1, w.trace ++ [Event.process block subtype], w.spawned,
        w.unhandled⟩) := by
  unfold process req processParams
  simp [run_bind, http, get_obj, List.lookup, JVal.isStr, h]

/-- The method `receivable` when the node answers with a JSON body: the
request is `pending` for the account with threshold 1, and the `blocks` of the
body are the result. -/
theorem run_receivable (lib : Lib σ) (rpc : RPC) (account : String) (w : World σ)
    (reply blocks : JVal) (s1 : σ)
    (h : lib.fetch w.remote rpc.rpcURL rpc.headerAuth
      (.obj [("action", .str "pending"), ("account", .str account),
        ("threshold", .str "1")]) = (.body (.ok reply), s1))
    (hblocks : reply.get "blocks" = .ok blocks) :
    receivable lib rpc account w =
      (.ok blocks, ⟨s1, w.trace ++ [Event.receivable account], w.spawned, w.unhandled⟩) := by
  unfold receivable req receivableParams
  simp [run_bind, http, get_obj, List.lookup, JVal.isStr, h, hblocks]

end RPC

/-! ## Computations that invoke no `receive` -/

section QuietLemmas

variable {σ α β : Type}

theorem quiet_of_trace (x : Async σ α) (l : List Event) (hl : l.filter Event.isReceive = [])
    (h : ∀ w, (x w).2.trace = w.trace ++ l) : Quiet x :=
  fun w => ⟨l, h w, hl⟩

theorem quiet_pure (a : α) : Quiet (pure a : Async σ α) :=
  fun w => ⟨[], by simp, rfl⟩

theorem quiet_raise (e : JsError) : Quiet (raise e : Async σ α) :=
  fun w => ⟨[], by simp, rfl⟩

theorem quiet_ofExcept (r : Except JsError α) : Quiet (ofExcept r : Async σ α) := by
  cases r with
  | ok a => exact fun w => ⟨[], by simp, rfl⟩
  | error e => exact fun w => ⟨[], by simp, rfl⟩

theorem quiet_log (e : Event) (he : e.isReceive = false) : Quiet (log e : Async σ Unit) :=
  fun w => ⟨[e], by simp, by simp [he]⟩

theorem quiet_bind (x : Async σ α) (f : α → Async σ β) (hx : Quiet x)
    (hf : ∀ a, Quiet (f a)) : Quiet (x >>= f) := by
  intro w
  obtain ⟨l1, h1, q1⟩ := hx w
  rw [run_bind]
  cases hxw : x w with
  | mk o w1 =>
    rw [hxw] at h1
    simp only [] at h1
    cases o with
    | error e => exact ⟨l1, by simpa using h1, q1⟩
    | ok a =>
      obtain ⟨l2, h2, q2⟩ := hf a w1
      refine ⟨l1 ++ l2, ?_, by simp [q1, q2]⟩
      simp only [cont_ok]
      rw [h2, h1, List.append_assoc]

theorem quiet_account_info (lib : Lib σ) (rpc : RPC) (account : String) :
    Quiet (rpc.account_info lib account) :=
  quiet_of_trace _ [Event.account_info account] rfl (RPC.account_info_trace lib rpc account)

theorem quiet_work_generate (lib : Lib σ) (rpc : RPC) (hash : JVal) :
    Quiet (rpc.work_generate lib hash) :=
  quiet_of_trace _ [Event.work_generate hash] rfl (RPC.work_generate_trace lib rpc hash)

theorem quiet_process (lib : Lib σ) (rpc : RPC) (block : JVal) (subtype : String) :
    Quiet (rpc.process lib block subtype) :=
  quiet_of_trace _ [Event.process block subtype] rfl (RPC.process_trace lib rpc block subtype)

theorem quiet_getPrivateKey (w : Wallet) (address : String) :
    Quiet (Wallet.getPrivateKey w address : Async σ String) := by
  unfold Wallet.getPrivateKey
  refine quiet_bind _ _ (quiet_log _ rfl) (fun _ => ?_)
  cases w.mapAccounts.lookup address with
  | none => exact quiet_raise _
  | some acc => exact quiet_pure _

theorem quiet_getPublicKey (w : Wallet) (address : String) :
    Quiet (Wallet.getPublicKey w address : Async σ String) := by
  unfold Wallet.getPublicKey
  refine quiet_bind _ _ (quiet_log _ rfl) (fun _ => ?_)
  cases w.mapAccounts.lookup address with
  | none => exact quiet_raise _
  | some acc => exact quiet_pure _

theorem quiet_blockReceive (lib : Lib σ) (data : ReceiveData) (pk : String) :
    Quiet (Wallet.blockReceive lib data pk) := by
  unfold Wallet.blockReceive
  exact quiet_bind _ _ (quiet_log _ rfl) (fun _ => quiet_ofExcept _)

/-- The critical section of `receive` invokes no further `receive`. -/
theorem quiet_receive_body (lib : Lib σ) (w : Wallet) (account : String)
    (pendingTx : PendingTx) :
    Quiet (do
      let privateKey ← Wallet.getPrivateKey w account
      let account_info ← w.rpc.account_info lib account
      let error ← ofExcept (account_info.get "error")
      if error.isStr "Account not found" then do
        let publicKey ← Wallet.getPublicKey w account
        let work ← w.rpc.work_generate lib (.str publicKey)
        let data : ReceiveData :=
          { toAddress := .str account, transactionHash := pendingTx.hash,
            amountRaw := pendingTx.amount, walletBalanceRaw := .str "0",
            representativeAddress := w.defaultRep,
            frontier := .str "0000000000000000000000000000000000000000000000000000000000000000",
            work := work }
        let signedBlock ← Wallet.blockReceive lib data privateKey
        let r ← w.rpc.process lib signedBlock "receive"
        pure r
      else do
        let balance ← ofExcept (account_info.get "balance")
        let representative ← ofExcept (account_info.get "representative")
        let frontier ← ofExcept (account_info.get "frontier")
        let frontier2 ← ofExcept (account_info.get "frontier")
        let work ← w.rpc.work_generate lib frontier2
        let data : ReceiveData :=
          { toAddress := .str account, transactionHash := pendingTx.hash,
            amountRaw := pendingTx.amount, walletBalanceRaw := balance,
            representativeAddress := representative, frontier := frontier, work := work }
        let signedBlock ← Wallet.blockReceive lib data privateKey
        let r ← w.rpc.process lib signedBlock "receive"
        pure r : Async σ JVal) := by
  refine quiet_bind _ _ (quiet_getPrivateKey w account) (fun privateKey => ?_)
  refine quiet_bind _ _ (quiet_account_info lib w.rpc account) (fun account_info => ?_)
  refine quiet_bind _ _ (quiet_ofExcept _) (fun error => ?_)
  split
  · refine quiet_bind _ _ (quiet_getPublicKey w account) (fun publicKey => ?_)
    refine quiet_bind _ _ (quiet_work_generate lib w.rpc _) (fun work => ?_)
    refine quiet_bind _ _ (quiet_blockReceive lib _ _) (fun signedBlock => ?_)
    exact quiet_bind _ _ (quiet_process lib w.rpc _ _) (fun r => quiet_pure r)
  · refine quiet_bind _ _ (quiet_ofExcept _) (fun balance => ?_)
    refine quiet_bind _ _ (quiet_ofExcept _) (fun representative => ?_)
    refine quiet_bind _ _ (quiet_ofExcept _) (fun frontier => ?_)
    refine quiet_bind _ _ (quiet_ofExcept _) (fun frontier2 => ?_)
    refine quiet_bind _ _ (quiet_work_generate lib w.rpc _) (fun work => ?_)
    refine quiet_bind _ _ (quiet_blockReceive lib _ _) (fun signedBlock => ?_)
    exact quiet_bind _ _ (quiet_process lib w.rpc _ _) (fun r => quiet_pure r)

/-- One call of `receive` adds exactly one `receive` invocation to the log:
its own. -/
theorem receive_invocations (lib : Lib σ) (w : Wallet) (account : String)
    (pendingTx : PendingTx) (world : World σ) :
    (Wallet.receive lib w account pendingTx world).2.trace.filter Event.isReceive =
      world.trace.filter Event.isReceive ++ [Event.receive account pendingTx] := by
  unfold Wallet.receive Wallet.lockAcquire
  rw [run_bind]
  simp only [run_log, cont_ok]
  obtain ⟨l, hl, ql⟩ := quiet_receive_body lib w account pendingTx
    { world with trace := world.trace ++ [Event.receive account pendingTx] }
  rw [hl]
  simp [ql, Event.isReceive]

end QuietLemmas

namespace Wallet

variable {σ : Type}

/-- The guard of `send`: an answer of the state fetch whose `error` is not
`undefined` ends `send` with `{error: <that error>}` in the world the fetch
left. -/
theorem send_error_guard (lib : Lib σ) (w : Wallet) (source : String)
    (destination amount info e : JVal) (world world1 : World σ)
    (hfetch : w.rpc.account_info lib source world = (.ok info, world1))
    (herr : info.get "error" = .ok e) (hdef : e.isUndefined = false) :
    send lib w source destination amount world = (.ok (.obj [("error", e)]), world1) := by
  unfold send lockAcquire
  rw [run_bind_ok _ _ _ _ _ hfetch, herr]
  simp [run_bind, hdef]

/-- C2: when `rpc.account_info(source)` answers with a value whose `error` is
not `undefined`, `send` resolves with exactly `{error: <that error>}` in the
world the fetch left: the only call made is the `account_info` request, so no
`work_generate`, key lookup, signing or `process` happens. -/
theorem send_fetch_error (lib : Lib σ) (w : Wallet) (source : String)
    (destination amount info e : JVal) (world world1 : World σ)
    (hfetch : w.rpc.account_info lib source world = (.ok info, world1))
    (herr : info.get "error" = .ok e) (hdef : e.isUndefined = false) :
    send lib w source destination amount world = (.ok (.obj [("error", e)]), world1) ∧
      world1.trace = world.trace ++ [Event.account_info source] := by
  constructor
  · exact send_error_guard lib w source destination amount info e world world1 hfetch herr hdef
  · have h := RPC.account_info_trace lib w.rpc source world
    rw [hfetch] at h
    exact h

/-- A value on which one property read succeeds lets every property read
succeed. -/
theorem get_total_of_get_ok (v a : JVal) (k k2 : String) (h : v.get k = .ok a) :
    ∃ b, v.get k2 = .ok b := by
  cases v with
  | undefined => simp [JVal.get] at h
  | null => simp [JVal.get] at h
  | bool b => exact ⟨_, rfl⟩
  | num n => exact ⟨_, rfl⟩
  | str s =>
    simp only [JVal.get]
    split <;> exact ⟨_, rfl⟩
  | surrogate code =>
    simp only [JVal.get]
    split <;> exact ⟨_, rfl⟩
  | arr items =>
    simp only [JVal.get]
    split <;> exact ⟨_, rfl⟩
  | obj props => exact ⟨_, rfl⟩

/-- The open case of `receive`: the fetch signals "Account not found". -/
theorem receive_open (lib : Lib σ) (w : Wallet) (account : String) (pendingTx : PendingTx)
    (info e token signedBlock : JVal) (acc : Account) (world world1 world2 world3 : World σ)
    (out : Except JsError JVal)
    (hheld : w.mapAccounts.lookup account = some acc)
    (hfetch : w.rpc.account_info lib account
      (world.logged [Event.receive account pendingTx, Event.getPrivateKey account]) =
        (.ok info, world1))
    (herr : info.get "error" = .ok e) (hnf : e.isStr "Account not found" = true)
    (hwork : w.rpc.work_generate lib (.str acc.publicKey)
      (world1.logged [Event.getPublicKey account]) = (.ok token, world2))
    (hsign : lib.blockReceive ⟨.str account, pendingTx.hash, pendingTx.amount, .str "0",
      w.defaultRep, .str "0000000000000000000000000000000000000000000000000000000000000000",
      token⟩ acc.privateKey = .ok signedBlock)
    (hproc : w.rpc.process lib signedBlock "receive"
      (world2.logged [Event.blockReceive ⟨.str account, pendingTx.hash, pendingTx.amount,
        .str "0", w.defaultRep,
        .str "0000000000000000000000000000000000000000000000000000000000000000", token⟩
        acc.privateKey]) = (out, world3)) :
    receive lib w account pendingTx world = (out, world3) ∧
      world3.trace = world.trace ++ [Event.receive account pendingTx,
        Event.getPrivateKey account, Event.account_info account, Event.getPublicKey account,
        Event.work_generate (.str acc.publicKey),
        Event.blockReceive ⟨.str account, pendingTx.hash, pendingTx.amount, .str "0",
          w.defaultRep,
          .str "0000000000000000000000000000000000000000000000000000000000000000", token⟩
          acc.privateKey,
        Event.process signedBlock "receive"] := by
  simp only [World.logged] at hfetch hwork hproc
  constructor
  · unfold receive lockAcquire
    simp only [run_bind, run_log, cont_ok, getPrivateKey, hheld, run_pure, List.append_assoc,
      List.singleton_append, hfetch, herr, run_ofExcept_ok]
    simp only [hnf, if_true]
    simp only [run_bind, run_log, cont_ok, getPublicKey, hheld, run_pure, hwork, blockReceive,
      hsign, run_ofExcept_ok, hproc]
    cases out <;> simp
  · have h1 := RPC.account_info_trace lib w.rpc account
      { world with trace := world.trace ++
        [Event.receive account pendingTx, Event.getPrivateKey account] }
    have h2 := RPC.work_generate_trace lib w.rpc (.str acc.publicKey)
      { world1 with trace := world1.trace ++ [Event.getPublicKey account] }
    have h3 := RPC.process_trace lib w.rpc signedBlock "receive"
      { world2 with trace := world2.trace ++ [Event.blockReceive ⟨.str account,
        pendingTx.hash, pendingTx.amount, .str "0", w.defaultRep,
        .str "0000000000000000000000000000000000000000000000000000000000000000", token⟩
        acc.privateKey] }
    rw [hfetch] at h1
    rw [hwork] at h2
    rw [hproc] at h3
    simp only [] at h1 h2 h3
    rw [h3, h2, h1]
    simp

/-- The continuation case of `receive`: the fetch does not signal "Account not
found". -/
theorem receive_continuation (lib : Lib σ) (w : Wallet) (account : String)
    (pendingTx : PendingTx) (info e balance representative frontier token signedBlock : JVal)
    (acc : Account) (world world1 world2 world3 : World σ) (out : Except JsError JVal)
    (hheld : w.mapAccounts.lookup account = some acc)
    (hfetch : w.rpc.account_info lib account
      (world.logged [Event.receive account pendingTx, Event.getPrivateKey account]) =
        (.ok info, world1))
    (herr : info.get "error" = .ok e) (hnf : e.isStr "Account not found" = false)
    (hbal : info.get "balance" = .ok balance)
    (hrep : info.get "representative" = .ok representative)
    (hfro : info.get "frontier" = .ok frontier)
    (hwork : w.rpc.work_generate lib frontier world1 = (.ok token, world2))
    (hsign : lib.blockReceive ⟨.str account, pendingTx.hash, pendingTx.amount, balance,
      representative, frontier, token⟩ acc.privateKey = .ok signedBlock)
    (hproc : w.rpc.process lib signedBlock "receive"
      (world2.logged [Event.blockReceive ⟨.str account, pendingTx.hash, pendingTx.amount,
        balance, representative, frontier, token⟩ acc.privateKey]) = (out, world3)) :
    receive lib w account pendingTx world = (out, world3) ∧
      world3.trace = world.trace ++ [Event.receive account pendingTx,
        Event.getPrivateKey account, Event.account_info account,
        Event.work_generate frontier,
        Event.blockReceive ⟨.str account, pendingTx.hash, pendingTx.amount, balance,
          representative, frontier, token⟩ acc.privateKey,
        Event.process signedBlock "receive"] := by
  simp only [World.logged] at hfetch hproc
  constructor
  · unfold receive lockAcquire
    simp only [run_bind, run_log, cont_ok, getPrivateKey, hheld, run_pure, List.append_assoc,
      List.singleton_append, hfetch, herr, run_ofExcept_ok]
    simp only [hnf, Bool.false_eq_true, if_false]
    simp only [run_bind, run_log, cont_ok, run_pure, hbal, hrep, hfro, hwork, blockReceive,
      hsign, run_ofExcept_ok, hproc]
    cases out <;> simp
  · have h1 := RPC.account_info_trace lib w.rpc account
      { world with trace := world.trace ++
        [Event.receive account pendingTx, Event.getPrivateKey account] }
    have h2 := RPC.work_generate_trace lib w.rpc frontier world1
    have h3 := RPC.process_trace lib w.rpc signedBlock "receive"
      { world2 with trace := world2.trace ++ [Event.blockReceive ⟨.str account,
        pendingTx.hash, pendingTx.amount, balance, representative, frontier, token⟩
        acc.privateKey] }
    rw [hfetch] at h1
    rw [hwork] at h2
    rw [hproc] at h3
    simp only [] at h1 h2 h3
    rw [h3, h2, h1]
    simp

/-- C1 (the code departs from the claim): on a held account, when the state
fetch answers with a value whose `error` is anything but the string "Account
not found" (so also any other error), `receive` does not stop: the next call it
makes is `work_generate` on the `frontier` of that answer, and whatever follows
comes after it in the log. -/
theorem receive_fetch_error_goes_on (lib : Lib σ) (w : Wallet) (account : String)
    (pendingTx : PendingTx) (info e : JVal) (acc : Account) (world world1 : World σ)
    (hheld : w.mapAccounts.lookup account = some acc)
    (hfetch : w.rpc.account_info lib account
      (world.logged [Event.receive account pendingTx, Event.getPrivateKey account]) =
        (.ok info, world1))
    (herr : info.get "error" = .ok e) (hnf : e.isStr "Account not found" = false) :
    ∃ frontier rest, info.get "frontier" = .ok frontier ∧
      (receive lib w account pendingTx world).2.trace =
        world.trace ++ [Event.receive account pendingTx, Event.getPrivateKey account,
          Event.account_info account, Event.work_generate frontier] ++ rest := by
  obtain ⟨balance, hbal⟩ := get_total_of_get_ok info e "error" "balance" herr
  obtain ⟨representative, hrep⟩ := get_total_of_get_ok info e "error" "representative" herr
  obtain ⟨frontier, hfro⟩ := get_total_of_get_ok info e "error" "frontier" herr
  suffices hsuf : ∃ rest, (receive lib w account pendingTx world).2.trace =
      world.trace ++ [Event.receive account pendingTx, Event.getPrivateKey account,
        Event.account_info account, Event.work_generate frontier] ++ rest by
    obtain ⟨rest, hrest⟩ := hsuf
    exact ⟨frontier, rest, hfro, hrest⟩
  simp only [World.logged] at hfetch
  have h1 := RPC.account_info_trace lib w.rpc account
    { world with trace := world.trace ++
      [Event.receive account pendingTx, Event.getPrivateKey account] }
  rw [hfetch] at h1
  simp only [] at h1
  have h2 := RPC.work_generate_trace lib w.rpc frontier world1
  unfold receive lockAcquire
  simp only [run_bind, run_log, cont_ok, getPrivateKey, hheld, run_pure, List.append_assoc,
    List.singleton_append, hfetch, herr, run_ofExcept_ok]
  simp only [hnf, Bool.false_eq_true, if_false]
  simp only [run_bind, run_log, cont_ok, run_pure, hbal, hrep, hfro, run_ofExcept_ok]
  cases hw : RPC.work_generate lib w.rpc frontier world1 with
  | mk o world2 =>
    rw [hw] at h2
    simp only [] at h2
    cases o with
    | error err => exact ⟨[], by simp [h2, h1]⟩
    | ok token =>
      simp only [cont_ok, blockReceive, run_bind, run_log]
      cases hs : lib.blockReceive ⟨.str account, pendingTx.hash, pendingTx.amount, balance,
        representative, frontier, token⟩ acc.privateKey with
      | error err =>
        exact ⟨[Event.blockReceive ⟨.str account, pendingTx.hash, pendingTx.amount, balance,
          representative, frontier, token⟩ acc.privateKey], by simp [h2, h1]⟩
      | ok signedBlock =>
        simp only [run_ofExcept_ok, cont_ok]
        have h3 := RPC.process_trace lib w.rpc signedBlock "receive"
          { world2 with trace := world2.trace ++ [Event.blockReceive ⟨.str account,
            pendingTx.hash, pendingTx.amount, balance, representative, frontier, token⟩
            acc.privateKey] }
        cases hp : RPC.process lib w.rpc signedBlock "receive"
          { world2 with trace := world2.trace ++ [Event.blockReceive ⟨.str account,
            pendingTx.hash, pendingTx.amount, balance, representative, frontier, token⟩
            acc.privateKey] } with
        | mk o3 world3 =>
          rw [hp] at h3
          simp only [] at h3
          refine ⟨[Event.blockReceive ⟨.str account, pendingTx.hash, pendingTx.amount,
            balance, representative, frontier, token⟩ acc.privateKey,
            Event.process signedBlock "receive"], ?_⟩
          rw [run_bind, hp]
          cases o3 <;> simp [h3, h2, h1]

/-- C3: on a held account the fields `receive` hands to `block.receive` follow
the state fetch. When the node answers the `account_info` request with
"Account not found": frontier the 64-zero hash, balance `"0"`, representative
the default representative, and the work is the token the work server gives
for a `work_generate` request on the public key of the account. Otherwise: the
fetched frontier, balance and representative, and the work is the token the
work server gives for a `work_generate` request on the fetched frontier. In
both cases the source hash and amount are those of `pendingTx`, the block is
signed with the private key of the account, the signed block is posted to the
node in one `process` request with subtype `"receive"`, and `receive` resolves
with the answer of the node to that request, unchanged. The requests are
those made to the transport; the log lists every call. -/
theorem receive_branch_selection (lib : Lib σ) (w : Wallet) (account : String)
    (pendingTx : PendingTx) (acc : Account) (world : World σ)
    (hheld : w.mapAccounts.lookup account = some acc) :
    (∀ (info e workReply token signedBlock response : JVal) (s1 s2 s3 : σ),
      lib.fetch world.remote w.rpc.rpcURL w.rpc.headerAuth
        (.obj [("action", .str "account_info"), ("account", .str account),
          ("representative", .str "true")]) = (.body (.ok info), s1) →
      info.get "error" = .ok e → e.isStr "Account not found" = true →
      lib.fetch s1 w.rpc.worURL w.rpc.headerAuth
        (.obj [("action", .str "work_generate"), ("hash", .str acc.publicKey)]) =
          (.body (.ok workReply), s2) →
      workReply.get "work" = .ok token → token.isUndefined = false →
      lib.blockReceive ⟨.str account, pendingTx.hash, pendingTx.amount, .str "0",
        w.defaultRep, .str "0000000000000000000000000000000000000000000000000000000000000000",
        token⟩ acc.privateKey = .ok signedBlock →
      lib.fetch s2 w.rpc.rpcURL w.rpc.headerAuth
        (.obj [("action", .str "process"), ("json_block", .str "true"),
          ("subtype", .str "receive"), ("block", signedBlock)]) =
          (.body (.ok response), s3) →
      receive lib w account pendingTx world =
        (.ok response,
          ⟨s3, world.trace ++ [Event.receive account pendingTx,
            Event.getPrivateKey account, Event.account_info account,
            Event.getPublicKey account, Event.work_generate (.str acc.publicKey),
            Event.blockReceive ⟨.str account, pendingTx.hash, pendingTx.amount, .str "0",
              w.defaultRep,
              .str "0000000000000000000000000000000000000000000000000000000000000000",
              token⟩ acc.privateKey,
            Event.process signedBlock "receive"], world.spawned, world.unhandled⟩)) ∧
    (∀ (info e balance representative frontier workReply token signedBlock response : JVal)
      (s1 s2 s3 : σ),
      lib.fetch world.remote w.rpc.rpcURL w.rpc.headerAuth
        (.obj [("action", .str "account_info"), ("account", .str account),
          ("representative", .str "true")]) = (.body (.ok info), s1) →
      info.get "error" = .ok e → e.isStr "Account not found" = false →
      info.get "balance" = .ok balance →
      info.get "representative" = .ok representative →
      info.get "frontier" = .ok frontier →
      lib.fetch s1 w.rpc.worURL w.rpc.headerAuth
        (.obj [("action", .str "work_generate"), ("hash", frontier)]) =
          (.body (.ok workReply), s2) →
      workReply.get "work" = .ok token → token.isUndefined = false →
      lib.blockReceive ⟨.str account, pendingTx.hash, pendingTx.amount, balance,
        representative, frontier, token⟩ acc.privateKey = .ok signedBlock →
      lib.fetch s2 w.rpc.rpcURL w.rpc.headerAuth
        (.obj [("action", .str "process"), ("json_block", .str "true"),
          ("subtype", .str "receive"), ("block", signedBlock)]) =
          (.body (.ok response), s3) →
      receive lib w account pendingTx world =
        (.ok response,
          ⟨s3, world.trace ++ [Event.receive account pendingTx,
            Event.getPrivateKey account, Event.account_info account,
            Event.work_generate frontier,
            Event.blockReceive ⟨.str account, pendingTx.hash, pendingTx.amount, balance,
              representative, frontier, token⟩ acc.privateKey,
            Event.process signedBlock "receive"], world.spawned, world.unhandled⟩)) := by
  constructor
  · intro info e workReply token signedBlock response s1 s2 s3 hfetch herr hnf hwork htoken
      hdef hsign hproc
    have h1 := RPC.run_account_info lib w.rpc account
      (world.logged [Event.receive account pendingTx, Event.getPrivateKey account]) info s1
      hfetch
    have h2 := RPC.run_work_generate lib w.rpc (.str acc.publicKey)
      (World.logged ⟨s1, (world.logged [Event.receive account pendingTx,
        Event.getPrivateKey account]).trace ++ [Event.account_info account], world.spawned,
        world.unhandled⟩ [Event.getPublicKey account]) workReply token s2 hwork htoken hdef
    have h3 := RPC.run_process lib w.rpc signedBlock "receive"
      (World.logged ⟨s2, (World.logged ⟨s1, (world.logged [Event.receive account pendingTx,
        Event.getPrivateKey account]).trace ++ [Event.account_info account], world.spawned,
        world.unhandled⟩ [Event.getPublicKey account]).trace ++
          [Event.work_generate (.str acc.publicKey)], world.spawned, world.unhandled⟩
        [Event.blockReceive ⟨.str account, pendingTx.hash, pendingTx.amount, .str "0",
          w.defaultRep,
          .str "0000000000000000000000000000000000000000000000000000000000000000", token⟩
          acc.privateKey]) response s3 hproc
    rw [(receive_open lib w account pendingTx info e token signedBlock acc world _ _ _
      (.ok response) hheld h1 herr hnf h2 hsign h3).1]
    simp [World.logged]
  · intro info e balance representative frontier workReply token signedBlock response s1 s2 s3
      hfetch herr hnf hbal hrep hfro hwork htoken hdef hsign hproc
    have h1 := RPC.run_account_info lib w.rpc account
      (world.logged [Event.receive account pendingTx, Event.getPrivateKey account]) info s1
      hfetch
    have h2 := RPC.run_work_generate lib w.rpc frontier
      ⟨s1, (world.logged [Event.receive account pendingTx,
        Event.getPrivateKey account]).trace ++ [Event.account_info account], world.spawned,
        world.unhandled⟩ workReply token s2 hwork htoken hdef
    have h3 := RPC.run_process lib w.rpc signedBlock "receive"
      (World.logged ⟨s2, (world.logged [Event.receive account pendingTx,
        Event.getPrivateKey account]).trace ++ [Event.account_info account] ++
          [Event.work_generate frontier], world.spawned, world.unhandled⟩
        [Event.blockReceive ⟨.str account, pendingTx.hash, pendingTx.amount, balance,
          representative, frontier, token⟩ acc.privateKey]) response s3 hproc
    rw [(receive_continuation lib w account pendingTx info e balance representative frontier
      token signedBlock acc world _ _ _ (.ok response) hheld h1 herr hnf hbal hrep hfro h2
      hsign h3).1]
    simp [World.logged]


/-- The run of `send` past its guard, in terms of the outcomes of the three
RPC methods. -/
theorem send_run (lib : Lib σ) (w : Wallet) (source : String)
    (destination amount info balance representative frontier token signedBlock : JVal)
    (acc : Account) (world world1 world2 world3 : World σ) (out : Except JsError JVal)
    (hheld : w.mapAccounts.lookup source = some acc)
    (hfetch : w.rpc.account_info lib source world = (.ok info, world1))
    (herr : info.get "error" = .ok .undefined)
    (hbal : info.get "balance" = .ok balance)
    (hrep : info.get "representative" = .ok representative)
    (hfro : info.get "frontier" = .ok frontier)
    (hwork : w.rpc.work_generate lib frontier world1 = (.ok token, world2))
    (hsign : lib.blockSend ⟨balance, .str source, destination, representative, frontier,
      amount, token⟩ acc.privateKey = .ok signedBlock)
    (hproc : w.rpc.process lib signedBlock "send"
      (world2.logged [Event.getPrivateKey source,
        Event.blockSend ⟨balance, .str source, destination, representative, frontier,
          amount, token⟩ acc.privateKey]) = (out, world3)) :
    send lib w source destination amount world = (out, world3) ∧
      world3.trace = world.trace ++ [Event.account_info source, Event.work_generate frontier,
        Event.getPrivateKey source,
        Event.blockSend ⟨balance, .str source, destination, representative, frontier,
          amount, token⟩ acc.privateKey,
        Event.process signedBlock "send"] := by
  constructor
  · unfold send lockAcquire
    rw [run_bind_ok _ _ _ _ _ hfetch, herr]
    simp only [World.logged] at hproc
    simp only [run_bind, run_ofExcept_ok, cont_ok]
    simp only [JVal.isUndefined, Bool.not_true, Bool.false_eq_true, if_false]
    simp only [run_bind, run_ofExcept_ok, cont_ok, hbal, hrep, hfro, hwork,
      getPrivateKey, hheld, blockSend, hsign, run_log, run_pure, hproc,
      List.append_assoc, List.singleton_append]
    cases out <;> simp
  · have h1 := RPC.account_info_trace lib w.rpc source world
    have h2 := RPC.work_generate_trace lib w.rpc frontier world1
    have h3 := RPC.process_trace lib w.rpc signedBlock "send"
      (world2.logged [Event.getPrivateKey source,
        Event.blockSend ⟨balance, .str source, destination, representative, frontier,
          amount, token⟩ acc.privateKey])
    rw [hfetch] at h1
    rw [hwork] at h2
    rw [hproc] at h3
    simp only [World.logged] at h3
    simp only [] at h1 h2 h3
    rw [h3, h2, h1]
    simp

/-- C4: `send` on a held source, when the node answers the `account_info`
request without an `error` and the work server answers the `work_generate`
request on the fetched frontier with a token: `block.send` is handed the
fetched balance, representative and frontier, the call's source, destination
and amount and that token, with the private key of the source; the signed
block is posted to the node in one `process` request with subtype `"send"`,
and `send` resolves with the answer of the node to that request, unchanged
(whatever fields it has). The requests are those made to the transport; the
log lists the five calls. -/
theorem send_builds_and_submits (lib : Lib σ) (w : Wallet) (source : String)
    (destination amount info balance representative frontier workReply token signedBlock
      response : JVal)
    (acc : Account) (world : World σ) (s1 s2 s3 : σ)
    (hheld : w.mapAccounts.lookup source = some acc)
    (hfetch : lib.fetch world.remote w.rpc.rpcURL w.rpc.headerAuth
      (.obj [("action", .str "account_info"), ("account", .str source),
        ("representative", .str "true")]) = (.body (.ok info), s1))
    (herr : info.get "error" = .ok .undefined)
    (hbal : info.get "balance" = .ok balance)
    (hrep : info.get "representative" = .ok representative)
    (hfro : info.get "frontier" = .ok frontier)
    (hwork : lib.fetch s1 w.rpc.worURL w.rpc.headerAuth
      (.obj [("action", .str "work_generate"), ("hash", frontier)]) =
        (.body (.ok workReply), s2))
    (htoken : workReply.get "work" = .ok token) (hdef : token.isUndefined = false)
    (hsign : lib.blockSend ⟨balance, .str source, destination, representative, frontier,
      amount, token⟩ acc.privateKey = .ok signedBlock)
    (hproc : lib.fetch s2 w.rpc.rpcURL w.rpc.headerAuth
      (.obj [("action", .str "process"), ("json_block", .str "true"),
        ("subtype", .str "send"), ("block", signedBlock)]) = (.body (.ok response), s3)) :
    send lib w source destination amount world =
      (.ok response,
        ⟨s3, world.trace ++ [Event.account_info source, Event.work_generate frontier,
          Event.getPrivateKey source,
          Event.blockSend ⟨balance, .str source, destination, representative, frontier,
            amount, token⟩ acc.privateKey,
          Event.process signedBlock "send"], world.spawned, world.unhandled⟩) := by
  have h1 := RPC.run_account_info lib w.rpc source world info s1 hfetch
  have h2 := RPC.run_work_generate lib w.rpc frontier
    ⟨s1, world.trace ++ [Event.account_info source], world.spawned, world.unhandled⟩
    workReply token s2 hwork htoken hdef
  have h3 := RPC.run_process lib w.rpc signedBlock "send"
    (World.logged ⟨s2, world.trace ++ [Event.account_info source] ++
      [Event.work_generate frontier], world.spawned, world.unhandled⟩
      [Event.getPrivateKey source,
        Event.blockSend ⟨balance, .str source, destination, representative, frontier,
          amount, token⟩ acc.privateKey]) response s3 hproc
  rw [(send_run lib w source destination amount info balance representative frontier token
    signedBlock acc world _ _ _ (.ok response) hheld h1 herr hbal hrep hfro h2 hsign h3).1]
  simp [World.logged]

/-- A value with a readable property is not `undefined`. -/
theorem isUndefined_false_of_get_ok (v a : JVal) (k : String) (h : v.get k = .ok a) :
    v.isUndefined = false := by
  cases v <;> simp [JVal.get, JVal.isUndefined] at h ⊢

/-- C5: for a decoded feed message that carries a message with a block,
`wsAutoReceiveSend` invokes `receive` exactly when the topic is
`"confirmation"`, the subtype of the block is `"send"` and `link_as_account`
is an address of the account table: then it is one `receive` for that address
with `{hash: message.hash, amount: message.amount}` and nothing else; in every
other case it resolves without making any call. -/
theorem wsAutoReceiveSend_dispatch (lib : Lib σ) (w : Wallet)
    (data_json topic message block subtype link hash amount : JVal) (world : World σ)
    (htopic : data_json.get "topic" = .ok topic)
    (hmsg : data_json.get "message" = .ok message)
    (hblock : message.get "block" = .ok block)
    (hsub : block.get "subtype" = .ok subtype)
    (hlink : block.get "link_as_account" = .ok link)
    (hhash : message.get "hash" = .ok hash)
    (hamount : message.get "amount" = .ok amount) :
    (∀ (address : String) (acc : Account),
      topic.isStr "confirmation" = true → subtype.isStr "send" = true →
      link = .str address → w.mapAccounts.lookup address = some acc →
      wsAutoReceiveSend lib w data_json world =
          cont (receive lib w address ⟨hash, amount⟩ world) (fun _ => pure .undefined) ∧
        (wsAutoReceiveSend lib w data_json world).2.trace.filter Event.isReceive =
          world.trace.filter Event.isReceive ++ [Event.receive address ⟨hash, amount⟩]) ∧
    ((topic.isStr "confirmation" = false ∨ subtype.isStr "send" = false ∨
        w.getAccount link = none) →
      wsAutoReceiveSend lib w data_json world = (.ok .undefined, world)) := by
  have hundef := isUndefined_false_of_get_ok message block "block" hblock
  constructor
  · intro address acc ht hs hl hheld
    have hrun : wsAutoReceiveSend lib w data_json world =
        cont (receive lib w address ⟨hash, amount⟩ world) (fun _ => pure .undefined) := by
      unfold wsAutoReceiveSend
      simp only [run_bind, htopic, run_ofExcept_ok, cont_ok]
      simp only [ht, Bool.not_true, Bool.false_eq_true, if_false]
      simp only [run_bind, hmsg, run_ofExcept_ok, cont_ok]
      simp only [hundef, Bool.false_eq_true, if_false]
      simp only [run_bind, hblock, hsub, run_ofExcept_ok, cont_ok]
      simp only [hs, Bool.not_true, Bool.false_eq_true, if_false]
      simp only [run_bind, hhash, hamount, hlink, run_ofExcept_ok, cont_ok]
      simp only [hl, getAccount, hheld]
      rw [run_bind]
    refine ⟨hrun, ?_⟩
    rw [hrun]
    have hinv := receive_invocations lib w address ⟨hash, amount⟩ world
    cases hr : receive lib w address ⟨hash, amount⟩ world with
    | mk o w1 =>
      rw [hr] at hinv
      cases o <;> simpa using hinv
  · intro hcase
    unfold wsAutoReceiveSend
    simp only [run_bind, htopic, run_ofExcept_ok, cont_ok]
    cases ht : topic.isStr "confirmation" with
    | false => simp
    | true =>
      simp only [Bool.not_true, Bool.false_eq_true, if_false]
      simp only [run_bind, hmsg, run_ofExcept_ok, cont_ok]
      simp only [hundef, Bool.false_eq_true, if_false]
      simp only [run_bind, hblock, hsub, run_ofExcept_ok, cont_ok]
      cases hs : subtype.isStr "send" with
      | false => simp
      | true =>
        simp only [Bool.not_true, Bool.false_eq_true, if_false]
        simp only [run_bind, hhash, hamount, hlink, run_ofExcept_ok, cont_ok]
        have hnone : w.getAccount link = none := by
          rcases hcase with h | h | h
          · rw [ht] at h; cases h
          · rw [hs] at h; cases h
          · exact h
        rw [hnone]
        cases link <;> rfl

/-- In a property list with one binding per key, every binding is the one a
lookup of its key finds. -/
theorem lookup_of_mem_nodup (entries : List (String × JVal))
    (hnd : (entries.map Prod.fst).Nodup) (kv : String × JVal) (hmem : kv ∈ entries) :
    entries.lookup kv.1 = some kv.2 := by
  induction entries with
  | nil => cases hmem
  | cons head rest ih =>
    obtain ⟨k, v⟩ := head
    simp only [List.map_cons, List.nodup_cons] at hnd
    rcases List.mem_cons.mp hmem with h | h
    · subst h
      simp [List.lookup]
    · have hne : kv.1 ≠ k := by
        intro heq
        apply hnd.1
        rw [← heq]
        exact List.mem_map_of_mem Prod.fst h
      have hb : (kv.1 == k) = false := by simpa using hne
      simp only [List.lookup, hb]
      exact ih hnd.2 h

/-- The loop of `receiveAll` dispatches one `receive` per key, in order, with
the key as hash and the value read at the key as amount; it makes no call
itself and ends normally. -/
theorem receiveEach_dispatch (account : String) (hashes : JVal) (val : String → JVal)
    (keys : List String) (hval : ∀ k ∈ keys, hashes.get k = .ok (val k)) (world : World σ) :
    (receiveEach account hashes keys : Async σ Unit) world =
      (.ok (), ⟨world.remote, world.trace,
        world.spawned ++ keys.map (fun k => Task.receive account ⟨.str k, val k⟩),
        world.unhandled⟩) := by
  induction keys generalizing world with
  | nil => simp [receiveEach]
  | cons k rest ih =>
    have hk := hval k (List.mem_cons_self k rest)
    have hrest : ∀ k2 ∈ rest, hashes.get k2 = .ok (val k2) :=
      fun k2 h2 => hval k2 (List.mem_cons_of_mem k h2)
    unfold receiveEach
    simp only [run_bind, hk, run_ofExcept_ok, cont_ok, run_spawn]
    rw [ih hrest]
    simp

/-- A `receive` nobody awaits adds exactly one `receive` invocation to the
log: its own. -/
theorem settle_receive_invocations (lib : Lib σ) (w : Wallet) (account : String)
    (pendingTx : PendingTx) (world : World σ) :
    (settle (receive lib w account pendingTx) world).trace.filter Event.isReceive =
      world.trace.filter Event.isReceive ++ [Event.receive account pendingTx] := by
  have h := receive_invocations lib w account pendingTx world
  unfold settle
  cases hr : receive lib w account pendingTx world with
  | mk o w1 =>
    rw [hr] at h
    cases o <;> simpa using h

/-- Receives run one after the other add their invocations to the log in that
order. -/
theorem fold_receive_invocations (lib : Lib σ) (w : Wallet) (account : String)
    (entries : List (String × JVal)) (world : World σ) :
    (entries.foldl (fun wd kv => settle (receive lib w account ⟨.str kv.1, kv.2⟩) wd)
        world).trace.filter Event.isReceive =
      world.trace.filter Event.isReceive ++
        entries.map (fun kv => Event.receive account ⟨.str kv.1, kv.2⟩) := by
  induction entries generalizing world with
  | nil => simp
  | cons kv rest ih =>
    simp only [List.foldl_cons, List.map_cons]
    rw [ih, settle_receive_invocations]
    simp

/-- C6: when the node answers the `pending` request for the address with a
mapping of n entries (one per source hash, also n = 0), `receiveAll` resolves
with `{started: true}` after that one request, having dispatched exactly n
calls of `receive` without awaiting them, one per entry, for the same address,
with `{hash: sourceHash, amount: mapped amount}`; the result does not depend
on what those receives do. Once the dispatched calls have run, the world is
the one n calls of `receive` leave, each started in the world the one before
left, a rejection being left unhandled. -/
theorem receiveAll_fan_out (lib : Lib σ) (w : Wallet) (account : String)
    (entries : List (String × JVal)) (reply : JVal) (world : World σ) (s1 : σ)
    (hnd : (entries.map Prod.fst).Nodup)
    (hfetch : lib.fetch world.remote w.rpc.rpcURL w.rpc.headerAuth
      (.obj [("action", .str "pending"), ("account", .str account),
        ("threshold", .str "1")]) = (.body (.ok reply), s1))
    (hblocks : reply.get "blocks" = .ok (.obj entries)) :
    receiveAll lib w account world =
        (.ok (.obj [("started", .bool true)]),
          ⟨s1, world.trace ++ [Event.receivable account],
            world.spawned ++ entries.map (fun kv => Task.receive account ⟨.str kv.1, kv.2⟩),
            world.unhandled⟩) ∧
    (receiveAll lib w account world).2.spawned.length =
        world.spawned.length + entries.length ∧
    (world.spawned = [] →
      drain lib w (receiveAll lib w account world).2 =
          entries.foldl (fun wd kv => settle (receive lib w account ⟨.str kv.1, kv.2⟩) wd)
            ⟨s1, world.trace ++ [Event.receivable account], [], world.unhandled⟩ ∧
        (drain lib w (receiveAll lib w account world).2).trace.filter Event.isReceive =
          world.trace.filter Event.isReceive ++
            entries.map (fun kv => Event.receive account ⟨.str kv.1, kv.2⟩)) := by
  have hval : ∀ k ∈ (JVal.obj entries).forInKeys,
      (JVal.obj entries).get k = .ok ((entries.lookup k).getD .undefined) :=
    fun k _ => rfl
  have hmap : (JVal.obj entries).forInKeys.map
      (fun k => Task.receive account ⟨.str k, (entries.lookup k).getD .undefined⟩) =
      entries.map (fun kv => Task.receive account ⟨.str kv.1, kv.2⟩) := by
    simp only [JVal.forInKeys, List.map_map]
    apply List.map_congr_left
    intro kv hkv
    simp [lookup_of_mem_nodup entries hnd kv hkv]
  have hrun : receiveAll lib w account world =
      (.ok (.obj [("started", .bool true)]),
        ⟨s1, world.trace ++ [Event.receivable account],
          world.spawned ++ entries.map (fun kv => Task.receive account ⟨.str kv.1, kv.2⟩),
          world.unhandled⟩) := by
    unfold receiveAll
    rw [run_bind, RPC.run_receivable lib w.rpc account world reply (.obj entries) s1 hfetch
      hblocks, cont_ok, run_bind,
      receiveEach_dispatch account (.obj entries)
        (fun k => (entries.lookup k).getD .undefined) (JVal.obj entries).forInKeys hval,
      hmap]
    rfl
  refine ⟨hrun, ?_, ?_⟩
  · rw [hrun]
    simp
  · intro hempty
    have hdrain : drain lib w (receiveAll lib w account world).2 =
        entries.foldl (fun wd kv => settle (receive lib w account ⟨.str kv.1, kv.2⟩) wd)
          ⟨s1, world.trace ++ [Event.receivable account], [], world.unhandled⟩ := by
      rw [hrun]
      simp only [drain, hempty, List.nil_append, List.foldl_map]
      rfl
    refine ⟨hdrain, ?_⟩
    rw [hdrain, fold_receive_invocations]
    simp [Event.isReceive]


/-- With a websocket in place `createAccounts` returns the derived addresses,
the configured text standing for `nano_`, and moves `lastIndex` by the count. -/
theorem createAccounts_with_socket (lib : Lib σ) (w : Wallet) (seed url : String)
    (sent : List String) (n : Nat) (hseed : w.seed = some seed)
    (hws : w.websocket = .socket url sent) :
    (createAccounts lib w n).1 =
        .ok ((lib.legacyAccounts seed w.lastIndex (w.lastIndex + n)).map
          (fun a => replaceFirst a.address "nano_" w.pfx)) ∧
      (createAccounts lib w n).2.lastIndex = w.lastIndex + n := by
  unfold createAccounts
  simp [hseed, hws, subscribeConfirmation, List.map_map, Function.comp_def]

/-- C7 (the code departs from the claim): a wallet constructed without
`WS_URL` has `websocket = null`, the guard of `createAccounts` compares with
`undefined`, and so `createAccounts` with a seed defined raises a `TypeError`
from `subscribeConfirmation` instead of returning the addresses; `lastIndex`
has moved by the count all the same. -/
theorem createAccounts_without_websocket (lib : Lib σ) (cfg : Config) (seed : String) (n : Nat)
    (hws : cfg.WS_URL = none) (hseed : cfg.seed = some seed) :
    (createAccounts lib (Wallet.new lib cfg) n).1 =
        .error ⟨"TypeError", "Cannot read properties of null (reading 'send')"⟩ ∧
      (createAccounts lib (Wallet.new lib cfg) n).2.lastIndex = n := by
  unfold createAccounts Wallet.new
  simp [hws, hseed, subscribeConfirmation]

/-- C8 (as amended): for an address that is not in the account table,
`receive` raises `<address> not found in wallet` before any request is made;
`send` raises it when the state fetch answers without an `error` and the work
generation gives a token, after those two requests and before any signing or
submission; when the state fetch answers with an `error`, `send` resolves with
`{error}` as it does for a held source. -/
theorem unknown_address_raises (lib : Lib σ) (w : Wallet) (address : String)
    (pendingTx : PendingTx) (destination amount : JVal) (world : World σ)
    (hunknown : w.mapAccounts.lookup address = none) :
    receive lib w address pendingTx world =
        (.error ⟨"Error", address ++ " not found in wallet"⟩,
          world.logged [Event.receive address pendingTx, Event.getPrivateKey address]) ∧
    (∀ (info frontier token : JVal) (world1 world2 : World σ),
      w.rpc.account_info lib address world = (.ok info, world1) →
      info.get "error" = .ok .undefined → info.get "frontier" = .ok frontier →
      w.rpc.work_generate lib frontier world1 = (.ok token, world2) →
      send lib w address destination amount world =
          (.error ⟨"Error", address ++ " not found in wallet"⟩,
            world2.logged [Event.getPrivateKey address]) ∧
        world2.trace = world.trace ++
          [Event.account_info address, Event.work_generate frontier]) ∧
    (∀ (info e : JVal) (world1 : World σ),
      w.rpc.account_info lib address world = (.ok info, world1) →
      info.get "error" = .ok e → e.isUndefined = false →
      send lib w address destination amount world = (.ok (.obj [("error", e)]), world1)) := by
  refine ⟨?_, ?_, ?_⟩
  · unfold receive lockAcquire
    simp [run_bind, getPrivateKey, hunknown, World.logged]
  · intro info frontier token world1 world2 hfetch herr hfro hwork
    obtain ⟨balance, hbal⟩ := get_total_of_get_ok info _ "error" "balance" herr
    obtain ⟨representative, hrep⟩ := get_total_of_get_ok info _ "error" "representative" herr
    constructor
    · unfold send lockAcquire
      rw [run_bind_ok _ _ _ _ _ hfetch, herr]
      simp only [run_bind, run_ofExcept_ok, cont_ok]
      simp only [JVal.isUndefined, Bool.not_true, Bool.false_eq_true, if_false]
      simp only [run_bind, run_ofExcept_ok, cont_ok, hbal, hrep, hfro, hwork,
        getPrivateKey, hunknown, run_log, run_raise, cont_error, World.logged]
    · have h1 := RPC.account_info_trace lib w.rpc address world
      have h2 := RPC.work_generate_trace lib w.rpc frontier world1
      rw [hfetch] at h1
      rw [hwork] at h2
      simp only [] at h1 h2
      rw [h2, h1]
      simp
  · intro info e world1 hfetch herr hdef
    exact send_error_guard lib w address destination amount info e world world1 hfetch herr hdef

/-- C9 (as amended): a text that `JSON.parse` rejects makes `onmessage` reject
with that error before any call or dispatch; for a text that parses, in any
state, `onmessage` resolves after dispatching `wsOnMessage` and (with
`autoReceive`) `wsAutoReceiveSend` without awaiting them and makes no call
itself, so nothing `wsAutoReceiveSend` or `receive` does raises out of it; the
decoded value `null` and a confirmation whose message is `null` or has no
block lead to no call at all; a decoded value other than `null` that is not a
confirmation, or has no message, is dropped by `wsAutoReceiveSend` without
raising and without any call; a rejection of the dispatched
`wsAutoReceiveSend` is left unhandled. -/
theorem onmessage_outcomes (lib : Lib σ) (w : Wallet) (text : String) (world : World σ) :
    (∀ e, lib.jsonParse text = .error e → onmessage lib w text world = (.error e, world)) ∧
    (∀ data, lib.jsonParse text = .ok data →
      onmessage lib w text world =
        (.ok .undefined, ⟨world.remote, world.trace,
          world.spawned ++ (Task.wsOnMessage data ::
            if w.autoReceive then [Task.wsAutoReceiveSend data] else []),
          world.unhandled⟩)) ∧
    (∀ data, (data = .null ∨
        (data.get "topic" = .ok (.str "confirmation") ∧
          (data.get "message" = .ok .null ∨
            ∃ m, data.get "message" = .ok m ∧ m.get "block" = .ok .undefined))) →
      (wsAutoReceiveSend lib w data world).2 = world) ∧
    (∀ data topic, data ≠ .null → data.get "topic" = .ok topic →
      (topic.isStr "confirmation" = false ∨ data.get "message" = .ok .undefined) →
      wsAutoReceiveSend lib w data world = (.ok .undefined, world)) ∧
    (∀ data e world1, wsAutoReceiveSend lib w data world = (.error e, world1) →
      runTask lib w (.wsAutoReceiveSend data) world =
        ⟨world1.remote, world1.trace, world1.spawned, world1.unhandled ++ [e]⟩) := by
  refine ⟨?_, ?_, ?_, ?_, ?_⟩
  · intro e he
    unfold onmessage
    rw [run_bind, he]
    rfl
  · intro data hd
    unfold onmessage
    rw [run_bind, hd]
    simp only [run_ofExcept_ok, cont_ok, run_bind, run_spawn]
    cases w.autoReceive <;> simp [run_bind]
  · intro data hcase
    rcases hcase with hnull | ⟨htopic, hcase⟩
    · subst hnull
      rfl
    · unfold wsAutoReceiveSend
      simp only [run_bind, htopic, run_ofExcept_ok, cont_ok]
      simp only [JVal.isStr, beq_self_eq_true, Bool.not_true, Bool.false_eq_true, if_false]
      rcases hcase with h | ⟨m, hm, hb⟩
      · simp only [run_bind, h, run_ofExcept_ok, cont_ok]
        simp only [JVal.isUndefined, Bool.false_eq_true, if_false]
        simp [run_bind, JVal.get]
      · have hundef := isUndefined_false_of_get_ok m _ "block" hb
        simp only [run_bind, hm, run_ofExcept_ok, cont_ok]
        simp only [hundef, Bool.false_eq_true, if_false]
        simp only [run_bind, hb, run_ofExcept_ok, cont_ok]
        rfl
  · intro data topic _ htopic hcase
    unfold wsAutoReceiveSend
    simp only [run_bind, htopic, run_ofExcept_ok, cont_ok]
    cases ht : topic.isStr "confirmation" with
    | false => simp
    | true =>
      rcases hcase with h | h
      · rw [ht] at h; cases h
      · simp only [Bool.not_true, Bool.false_eq_true, if_false]
        simp only [run_bind, h, run_ofExcept_ok, cont_ok]
        simp [JVal.isUndefined]
  · intro data e world1 h
    simp [runTask, settle, h]


/-! ## The theorems at sample inputs -/

theorem send_fetch_error_witness :
    send sampleLib sampleWallet "nano_a" (.str "nano_b") (.str "5")
        (sampleWorld [.body (.ok sampleNotFound)]) =
      (.ok (.obj [("error", .str "Account not found")]),
        ⟨[], [Event.account_info "nano_a"], [], []⟩) :=
  (send_fetch_error sampleLib sampleWallet "nano_a" (.str "nano_b") (.str "5")
    sampleNotFound (.str "Account not found") (sampleWorld [.body (.ok sampleNotFound)])
    ⟨[], [Event.account_info "nano_a"], [], []⟩ rfl rfl rfl).1

theorem send_builds_and_submits_witness :
    send sampleLib sampleWallet "nano_a" (.str "nano_b") (.str "5") (sampleWorld sampleScript) =
      (.ok sampleProcessed,
        ⟨[], [] ++ [Event.account_info "nano_a", Event.work_generate (.str "F0"),
          Event.getPrivateKey "nano_a",
          Event.blockSend ⟨.str "100", .str "nano_a", .str "nano_b", .str "nano_rep2",
            .str "F0", .str "5", .str "W1"⟩ "priv_a",
          Event.process (.obj [("previous", .str "F0"), ("link", .str "nano_b"),
            ("work", .str "W1"), ("signature", .str "priv_a")]) "send"], [], []⟩) :=
  send_builds_and_submits sampleLib sampleWallet "nano_a" (.str "nano_b") (.str "5")
    sampleInfo (.str "100") (.str "nano_rep2") (.str "F0") sampleWork (.str "W1")
    (.obj [("previous", .str "F0"), ("link", .str "nano_b"), ("work", .str "W1"),
      ("signature", .str "priv_a")]) sampleProcessed
    ⟨0, "priv_a", "pub_a", "nano_a"⟩ (sampleWorld sampleScript)
    [.body (.ok sampleWork), .body (.ok sampleProcessed)] [.body (.ok sampleProcessed)] []
    rfl rfl rfl rfl rfl rfl rfl rfl rfl rfl rfl

theorem receive_fetch_error_goes_on_witness :
    ∃ frontier rest,
      (JVal.obj [("error", .str "Unexpected token < in JSON at position 0")]).get "frontier" =
        .ok frontier ∧
      (receive sampleLib sampleWallet "nano_a" samplePending
          (sampleWorld sampleBrokenScript)).2.trace =
        [] ++ [Event.receive "nano_a" samplePending, Event.getPrivateKey "nano_a",
          Event.account_info "nano_a", Event.work_generate frontier] ++ rest :=
  receive_fetch_error_goes_on sampleLib sampleWallet "nano_a" samplePending
    (.obj [("error", .str "Unexpected token < in JSON at position 0")])
    (.str "Unexpected token < in JSON at position 0") ⟨0, "priv_a", "pub_a", "nano_a"⟩
    (sampleWorld sampleBrokenScript) _ rfl rfl rfl rfl

/-- C1, the failing input evaluated with the sample signer, which accepts any
fields: the state fetch of `receive` answers with an error that is not
"Account not found"; `receive` asks for work on `undefined`, hands the signer
`undefined` balance, representative and frontier, submits the block and
resolves with the answer to the submission. -/
theorem receive_fetch_error_failing_input :
    receive sampleLib sampleWallet "nano_a" samplePending (sampleWorld sampleBrokenScript) =
      (.ok sampleProcessed,
        ⟨[], [Event.receive "nano_a" samplePending, Event.getPrivateKey "nano_a",
          Event.account_info "nano_a", Event.work_generate .undefined,
          Event.blockReceive ⟨.str "nano_a", .str "S1", .str "50", .undefined, .undefined,
            .undefined, .str "W1"⟩ "priv_a",
          Event.process (.obj [("previous", .undefined), ("link", .str "S1"),
            ("work", .str "W1"), ("signature", .str "priv_a")]) "receive"], [], []⟩) := rfl

theorem receive_branch_selection_witness :
    receive sampleLib sampleWallet "nano_a" samplePending (sampleWorld sampleOpenScript) =
        (.ok sampleProcessed,
          ⟨[], [] ++ [Event.receive "nano_a" samplePending, Event.getPrivateKey "nano_a",
            Event.account_info "nano_a", Event.getPublicKey "nano_a",
            Event.work_generate (.str "pub_a"),
            Event.blockReceive ⟨.str "nano_a", .str "S1", .str "50", .str "0",
              .str "nano_rep",
              .str "0000000000000000000000000000000000000000000000000000000000000000",
              .str "W1"⟩ "priv_a",
            Event.process (.obj [("previous",
              .str "0000000000000000000000000000000000000000000000000000000000000000"),
              ("link", .str "S1"), ("work", .str "W1"), ("signature", .str "priv_a")])
              "receive"], [], []⟩) ∧
      receive sampleLib sampleWallet "nano_a" samplePending (sampleWorld sampleScript) =
        (.ok sampleProcessed,
          ⟨[], [] ++ [Event.receive "nano_a" samplePending, Event.getPrivateKey "nano_a",
            Event.account_info "nano_a", Event.work_generate (.str "F0"),
            Event.blockReceive ⟨.str "nano_a", .str "S1", .str "50", .str "100",
              .str "nano_rep2", .str "F0", .str "W1"⟩ "priv_a",
            Event.process (.obj [("previous", .str "F0"), ("link", .str "S1"),
              ("work", .str "W1"), ("signature", .str "priv_a")]) "receive"], [], []⟩) :=
  ⟨(receive_branch_selection sampleLib sampleWallet "nano_a" samplePending
      ⟨0, "priv_a", "pub_a", "nano_a"⟩ (sampleWorld sampleOpenScript) rfl).1
      sampleNotFound (.str "Account not found") sampleWork (.str "W1")
      (.obj [("previous",
        .str "0000000000000000000000000000000000000000000000000000000000000000"),
        ("link", .str "S1"), ("work", .str "W1"), ("signature", .str "priv_a")])
      sampleProcessed
      [.body (.ok sampleWork), .body (.ok sampleProcessed)] [.body (.ok sampleProcessed)] []
      rfl rfl rfl rfl rfl rfl rfl rfl,
    (receive_branch_selection sampleLib sampleWallet "nano_a" samplePending
      ⟨0, "priv_a", "pub_a", "nano_a"⟩ (sampleWorld sampleScript) rfl).2
      sampleInfo .undefined (.str "100") (.str "nano_rep2") (.str "F0") sampleWork (.str "W1")
      (.obj [("previous", .str "F0"), ("link", .str "S1"), ("work", .str "W1"),
        ("signature", .str "priv_a")])
      sampleProcessed
      [.body (.ok sampleWork), .body (.ok sampleProcessed)] [.body (.ok sampleProcessed)] []
      rfl rfl rfl rfl rfl rfl rfl rfl rfl rfl rfl⟩

theorem wsAutoReceiveSend_dispatch_witness :
    (wsAutoReceiveSend sampleLib sampleWallet sampleConfirmation (sampleWorld sampleScript) =
        cont (receive sampleLib sampleWallet "nano_a" samplePending (sampleWorld sampleScript))
          (fun _ => pure .undefined) ∧
      (wsAutoReceiveSend sampleLib sampleWallet sampleConfirmation
          (sampleWorld sampleScript)).2.trace.filter Event.isReceive =
        [Event.receive "nano_a" samplePending]) ∧
    wsAutoReceiveSend sampleLib { sampleWallet with mapAccounts := [] } sampleConfirmation
        (sampleWorld sampleScript) = (.ok .undefined, sampleWorld sampleScript) :=
  ⟨(wsAutoReceiveSend_dispatch sampleLib sampleWallet sampleConfirmation
      (.str "confirmation")
      (.obj [("hash", .str "S1"), ("amount", .str "50"),
        ("block", .obj [("subtype", .str "send"), ("link_as_account", .str "nano_a")])])
      (.obj [("subtype", .str "send"), ("link_as_account", .str "nano_a")])
      (.str "send") (.str "nano_a") (.str "S1") (.str "50") (sampleWorld sampleScript)
      rfl rfl rfl rfl rfl rfl rfl).1 "nano_a" ⟨0, "priv_a", "pub_a", "nano_a"⟩ rfl rfl rfl rfl,
    (wsAutoReceiveSend_dispatch sampleLib { sampleWallet with mapAccounts := [] }
      sampleConfirmation (.str "confirmation")
      (.obj [("hash", .str "S1"), ("amount", .str "50"),
        ("block", .obj [("subtype", .str "send"), ("link_as_account", .str "nano_a")])])
      (.obj [("subtype", .str "send"), ("link_as_account", .str "nano_a")])
      (.str "send") (.str "nano_a") (.str "S1") (.str "50") (sampleWorld sampleScript)
      rfl rfl rfl rfl rfl rfl rfl).2 (Or.inr (Or.inr rfl))⟩

theorem receiveAll_fan_out_witness :
    receiveAll sampleLib sampleWallet "nano_a"
        (sampleWorld [.body (.ok (.obj [("blocks", .obj sampleReceivable)]))]) =
      (.ok (.obj [("started", .bool true)]),
        ⟨[], [] ++ [Event.receivable "nano_a"],
          [] ++ sampleReceivable.map (fun kv => Task.receive "nano_a" ⟨.str kv.1, kv.2⟩),
          []⟩) ∧
    (receiveAll sampleLib sampleWallet "nano_a"
        (sampleWorld [.body (.ok (.obj [("blocks", .obj sampleReceivable)]))])).2.spawned.length =
      0 + 3 ∧
    (drain sampleLib sampleWallet (receiveAll sampleLib sampleWallet "nano_a"
        (sampleWorld [.body (.ok (.obj [("blocks", .obj sampleReceivable)]))])).2 =
      sampleReceivable.foldl
        (fun wd kv => settle (receive sampleLib sampleWallet "nano_a" ⟨.str kv.1, kv.2⟩) wd)
        ⟨[], [] ++ [Event.receivable "nano_a"], [], []⟩ ∧
      (drain sampleLib sampleWallet (receiveAll sampleLib sampleWallet "nano_a"
        (sampleWorld [.body (.ok (.obj [("blocks", .obj sampleReceivable)]))])).2).trace.filter
          Event.isReceive =
        [] ++ sampleReceivable.map (fun kv => Event.receive "nano_a" ⟨.str kv.1, kv.2⟩)) :=
  ⟨(receiveAll_fan_out sampleLib sampleWallet "nano_a" sampleReceivable
      (.obj [("blocks", .obj sampleReceivable)])
      (sampleWorld [.body (.ok (.obj [("blocks", .obj sampleReceivable)]))]) []
      (by decide) rfl rfl).1,
    (receiveAll_fan_out sampleLib sampleWallet "nano_a" sampleReceivable
      (.obj [("blocks", .obj sampleReceivable)])
      (sampleWorld [.body (.ok (.obj [("blocks", .obj sampleReceivable)]))]) []
      (by decide) rfl rfl).2.1,
    (receiveAll_fan_out sampleLib sampleWallet "nano_a" sampleReceivable
      (.obj [("blocks", .obj sampleReceivable)])
      (sampleWorld [.body (.ok (.obj [("blocks", .obj sampleReceivable)]))]) []
      (by decide) rfl rfl).2.2 rfl⟩

theorem createAccounts_without_websocket_witness :
    (createAccounts sampleLib (Wallet.new sampleLib sampleConfig) 1).1 =
        .error ⟨"TypeError", "Cannot read properties of null (reading 'send')"⟩ ∧
      (createAccounts sampleLib (Wallet.new sampleLib sampleConfig) 1).2.lastIndex = 1 :=
  createAccounts_without_websocket sampleLib sampleConfig
    "0000000000000000000000000000000000000000000000000000000000000001" 1 rfl rfl

/-- C8, the claim fails for `send`: with a source that is not in the account
table and a state fetch answering "Account not found", `send` resolves with
`{error: "Account not found"}` and raises nothing. -/
theorem send_unknown_source_resolves :
    sampleWallet.mapAccounts.lookup "nano_x" = none ∧
      send sampleLib sampleWallet "nano_x" (.str "nano_b") (.str "5")
          (sampleWorld [.body (.ok sampleNotFound)]) =
        (.ok (.obj [("error", .str "Account not found")]),
          ⟨[], [Event.account_info "nano_x"], [], []⟩) :=
  ⟨rfl, rfl⟩

theorem unknown_address_raises_witness :
    receive sampleLib sampleWallet "nano_x" samplePending (sampleWorld sampleScript) =
        (.error ⟨"Error", "nano_x not found in wallet"⟩,
          ⟨sampleScript, [Event.receive "nano_x" samplePending,
            Event.getPrivateKey "nano_x"], [], []⟩) ∧
      send sampleLib sampleWallet "nano_x" (.str "nano_b") (.str "5")
          (sampleWorld sampleScript) =
        (.error ⟨"Error", "nano_x not found in wallet"⟩,
          ⟨[.body (.ok sampleProcessed)],
            [Event.account_info "nano_x", Event.work_generate (.str "F0"),
              Event.getPrivateKey "nano_x"], [], []⟩) ∧
      send sampleLib sampleWallet "nano_x" (.str "nano_b") (.str "5")
          (sampleWorld [.body (.ok (.obj [("error", .str "Bad account number")]))]) =
        (.ok (.obj [("error", .str "Bad account number")]),
          ⟨[], [Event.account_info "nano_x"], [], []⟩) :=
  ⟨(unknown_address_raises sampleLib sampleWallet "nano_x" samplePending (.str "nano_b")
      (.str "5") (sampleWorld sampleScript) rfl).1,
    ((unknown_address_raises sampleLib sampleWallet "nano_x" samplePending (.str "nano_b")
      (.str "5") (sampleWorld sampleScript) rfl).2.1 sampleInfo (.str "F0") (.str "W1") _
        ⟨[.body (.ok sampleProcessed)],
          [Event.account_info "nano_x", Event.work_generate (.str "F0")], [], []⟩
        rfl rfl rfl rfl).1,
    (unknown_address_raises sampleLib sampleWallet "nano_x" samplePending (.str "nano_b")
      (.str "5") (sampleWorld [.body (.ok (.obj [("error", .str "Bad account number")]))])
        rfl).2.2
        (.obj [("error", .str "Bad account number")]) (.str "Bad account number") _
        rfl rfl rfl⟩

/-- C9, the claim fails: the handler raises on a text that is not JSON
(`onmessage` rejects with the error of the parser) and on a confirmation whose
message is `null` (`wsAutoReceiveSend` rejects with a `TypeError`, which the
handler leaves unhandled). -/
theorem handler_raises_on_malformed :
    onmessage sampleLib sampleWallet "not json" (sampleWorld []) =
        (.error ⟨"SyntaxError", "Unexpected token"⟩, sampleWorld []) ∧
      wsAutoReceiveSend sampleLib sampleWallet
          (.obj [("topic", .str "confirmation"), ("message", .null)]) (sampleWorld []) =
        (.error ⟨"TypeError", "Cannot read properties of null (reading 'block')"⟩,
          sampleWorld []) ∧
      drain sampleLib sampleWallet (onmessage sampleLib sampleWallet
          "\x7b\"topic\":\"confirmation\",\"message\":null\x7d" (sampleWorld [])).2 =
        ⟨[], [], [],
          [⟨"TypeError", "Cannot read properties of null (reading 'block')"⟩]⟩ :=
  ⟨rfl, rfl, rfl⟩

theorem onmessage_outcomes_witness :
    onmessage sampleLib sampleWallet "not json" (sampleWorld []) =
        (.error ⟨"SyntaxError", "Unexpected token"⟩, sampleWorld []) ∧
      onmessage sampleLib sampleWallet
        "\x7b\"topic\":\"confirmation\",\"message\":null\x7d" (sampleWorld []) =
          (.ok .undefined, ⟨[], [],
            [] ++ [Task.wsOnMessage (.obj [("topic", .str "confirmation"), ("message", .null)]),
              Task.wsAutoReceiveSend
                (.obj [("topic", .str "confirmation"), ("message", .null)])], []⟩) ∧
      (wsAutoReceiveSend sampleLib sampleWallet
        (.obj [("topic", .str "confirmation"), ("message", .null)]) (sampleWorld [])).2 =
          sampleWorld [] ∧
      wsAutoReceiveSend sampleLib sampleWallet (.obj [("ack", .str "subscribe")])
        (sampleWorld []) = (.ok .undefined, sampleWorld []) ∧
      runTask sampleLib sampleWallet
        (.wsAutoReceiveSend (.obj [("topic", .str "confirmation"), ("message", .null)]))
        (sampleWorld []) =
          ⟨[], [], [], [] ++
            [⟨"TypeError", "Cannot read properties of null (reading 'block')"⟩]⟩ :=
  ⟨(onmessage_outcomes sampleLib sampleWallet "not json" (sampleWorld [])).1 _ rfl,
    (onmessage_outcomes sampleLib sampleWallet
      "\x7b\"topic\":\"confirmation\",\"message\":null\x7d" (sampleWorld [])).2.1
        (.obj [("topic", .str "confirmation"), ("message", .null)]) rfl,
    (onmessage_outcomes sampleLib sampleWallet "not json" (sampleWorld [])).2.2.1
      (.obj [("topic", .str "confirmation"), ("message", .null)])
      (Or.inr ⟨rfl, Or.inl rfl⟩),
    (onmessage_outcomes sampleLib sampleWallet "not json" (sampleWorld [])).2.2.2.1
      (.obj [("ack", .str "subscribe")]) .undefined (fun h => nomatch h) rfl (Or.inl rfl),
    (onmessage_outcomes sampleLib sampleWallet "not json" (sampleWorld [])).2.2.2.2
      (.obj [("topic", .str "confirmation"), ("message", .null)])
      ⟨"TypeError", "Cannot read properties of null (reading 'block')"⟩ (sampleWorld []) rfl⟩

end Wallet

end NanoWallet
